import Mathlib

/-!
Verification development for the atom-date-normalizer core
(`patternhandlers.py`, `normalizedates.py`).

The Python code is shallowly embedded: strings are `List Char` / `String`,
Python exceptions are an `Except` error value, `re` patterns are terms of a
small regex AST evaluated by a backtracking matcher that mirrors the
leftmost / greedy / ordered-alternation semantics of CPython's `re` engine,
and `datetime.strptime` is transcribed from the token regexes CPython's
`_strptime` module compiles for the concrete format strings used by the
program.  All inputs relevant here are ASCII (the cleaned date strings),
so character classes are modelled on ASCII.
-/

namespace AtomDate

/-! ### Character helpers (ASCII models of Python predicates) -/

/-- Python `\s` on the ASCII range. -/
def isSpaceCh (c : Char) : Bool :=
  c = ' ' || c = '\t' || c = '\n' || c = '\x0b' || c = '\x0c' || c = '\r'

/-- `[a-z]`. -/
def isLowerAlpha (c : Char) : Bool :=
  'a' ≤ c && c ≤ 'z'

/-- `[A-Z]`. -/
def isUpperAlpha (c : Char) : Bool :=
  'A' ≤ c && c ≤ 'Z'

def isAlphaCh (c : Char) : Bool :=
  isLowerAlpha c || isUpperAlpha c

/-- Python `\w` (word character) on the ASCII range. -/
def isWordCh (c : Char) : Bool :=
  isAlphaCh c || c.isDigit || c = '_'

/-- The decimal digit character for `n % 10`. -/
def dChar (n : Nat) : Char :=
  match n % 10 with
  | 0 => '0' | 1 => '1' | 2 => '2' | 3 => '3' | 4 => '4'
  | 5 => '5' | 6 => '6' | 7 => '7' | 8 => '8' | _ => '9'

/-- Numeric value of a decimal digit character. -/
def digitVal (c : Char) : Nat :=
  c.toNat - 48

/-- ASCII lower-casing, as Python `str.lower` acts on ASCII. -/
def lowCh (c : Char) : Char :=
  if isUpperAlpha c then Char.ofNat (c.toNat + 32) else c

/-- ASCII upper-casing, as Python `str.upper` acts on ASCII. -/
def upCh (c : Char) : Char :=
  if isLowerAlpha c then Char.ofNat (c.toNat - 32) else c

/-! ### Python string primitives on `List Char` -/

/-- `str.strip()`: drop ASCII whitespace from both ends. -/
def stripL (s : List Char) : List Char :=
  ((s.dropWhile isSpaceCh).reverse.dropWhile isSpaceCh).reverse

/-- `str.lower()`. -/
def lowerL (s : List Char) : List Char :=
  s.map lowCh

/-- `str.title()`: first cased character of each alphabetic run upper-cased,
the rest lower-cased; the boolean tracks whether the previous character was
alphabetic. -/
def titleAux : Bool → List Char → List Char
  | _, [] => []
  | prevAlpha, c :: cs =>
    (if isAlphaCh c then (if prevAlpha then lowCh c else upCh c) else c)
      :: titleAux (isAlphaCh c) cs

def titleL (s : List Char) : List Char :=
  titleAux false s

/-- Substring test (Python `needle in hay`). -/
def containsSub (needle : List Char) (hay : List Char) : Bool :=
  match hay with
  | [] => needle.isEmpty
  | _ :: t => needle.isPrefixOf hay || containsSub needle t

/-- `str.replace(pat, rep)` for a non-empty `pat`: scan left to right,
replace non-overlapping occurrences, never rescan the replacement.  The
fuel argument (instantiated with the string length) makes the recursion
structural; it never runs out because each step consumes at least one
input character. -/
def replaceFuel : Nat → List Char → List Char → List Char → List Char
  | 0, s, _, _ => s
  | fuel + 1, s, pat, rep =>
    match s with
    | [] => []
    | c :: cs =>
      if pat.isPrefixOf s && !pat.isEmpty then
        rep ++ replaceFuel fuel (s.drop pat.length) pat rep
      else
        c :: replaceFuel fuel cs pat rep

def pyReplace (s pat rep : List Char) : List Char :=
  replaceFuel s.length s pat rep

/-- Does `re.sub(r"\b<w>\b", ...)` match at the current position?  `prev` is
the character just before this position in the original string (none at the
start of the string). -/
def wordHere (w : List Char) (prev : Option Char) (s : List Char) : Bool :=
  (match prev with | none => true | some p => !isWordCh p)
    && w.isPrefixOf s
    && (match s.drop w.length with | [] => true | d :: _ => !isWordCh d)

/-- Is there any `\b<w>\b` occurrence in `s` (with `prev` before it)? -/
def wordFind (w : List Char) (prev : Option Char) : List Char → Bool
  | [] => false
  | c :: cs => wordHere w prev (c :: cs) || wordFind w (some c) cs

/-- `re.sub(r"\b<w>\b", rep, s)` for a non-empty all-letter word `w`:
matches are located in the original string (boundaries judged on the
original characters), are non-overlapping, and the replacement text is
never rescanned.  Fuel as in `replaceFuel`. -/
def wordSubFuel (w rep : List Char) : Nat → Option Char → List Char → List Char
  | 0, _, s => s
  | fuel + 1, prev, s =>
    match s with
    | [] => []
    | c :: cs =>
      if wordHere w prev s then
        rep ++ wordSubFuel w rep fuel (some (w.getLastD c)) (s.drop w.length)
      else
        c :: wordSubFuel w rep fuel (some c) cs

def pyWordSub (w rep s : List Char) : List Char :=
  wordSubFuel w rep s.length none s

/-- Decimal digits of a natural number (Python `str(n)` / `"{}".format(n)`).
Fuel-based to keep the recursion structural. -/
def reprFuel : Nat → Nat → List Char
  | 0, _ => []
  | fuel + 1, n =>
    if n < 10 then [dChar n] else reprFuel fuel (n / 10) ++ [dChar (n % 10)]

def pyRepr (n : Nat) : List Char :=
  reprFuel (n + 1) n

/-- Left-pad with `0` to width 2 (`"{:02d}".format` / `strftime` `%m`, `%d`). -/
def pad2 (n : Nat) : List Char :=
  [dChar (n / 10), dChar n]

/-- Left-pad with `0` to width 4 (`strftime` `%Y`). -/
def pad4 (n : Nat) : List Char :=
  [dChar (n / 1000), dChar (n / 100), dChar (n / 10), dChar n]

/-! ### The text cleaner (`date_clean`) -/

/-- The literal substitutions of `subs`, applied in order. -/
def subsList : List (List Char × List Char) :=
  [ (['['], []),
    ([']'], []),
    (['c', 'a', '.'], []),
    (['c', 'a'], []),
    (['-', '?'], ['-']),
    (['c', 'i', 'r'], []),
    ([','], []),
    (['.'], []) ]

/-- The word-boundary month-abbreviation substitutions of `re_subs`,
applied in order. -/
def reSubsList : List (List Char × List Char) :=
  [ ("sept".toList, "september".toList),
    ("jan".toList, "january".toList),
    ("feb".toList, "february".toList),
    ("mar".toList, "march".toList),
    ("apr".toList, "april".toList),
    ("jun".toList, "june".toList),
    ("jul".toList, "july".toList),
    ("aug".toList, "august".toList),
    ("sep".toList, "september".toList),
    ("oct".toList, "october".toList),
    ("nov".toList, "november".toList),
    ("dec".toList, "december".toList) ]

def applySubs (s : List Char) : List Char :=
  subsList.foldl (fun acc pr => pyReplace acc pr.1 pr.2) s

def applyReSubs (s : List Char) : List Char :=
  reSubsList.foldl (fun acc pr => pyWordSub pr.1 pr.2 acc) s

def date_clean_chars (s : List Char) : List Char :=
  stripL (applyReSubs (applySubs (lowerL (stripL s))))

/-- `date_clean` from `patternhandlers.py`. -/
def date_clean (s : String) : String :=
  ⟨date_clean_chars s.toList⟩

/-! ### A backtracking regex matcher

The AST covers exactly the constructs used by the 27 registered patterns:
character classes, concatenation, ordered alternation, greedy `?`, greedy
`*`/`+` over a character class, and numbered capture groups.  The CPS
matcher explores alternatives in CPython `re`'s order: alternation
left-to-right, repetition longest-first, so the first overall match (and
its captures) coincides with `re`'s. -/

inductive RE where
  | eps : RE
  | cls : (Char → Bool) → RE
  | seq : RE → RE → RE
  | alt : RE → RE → RE
  | opt : RE → RE
  | star : (Char → Bool) → RE
  | group : Nat → RE → RE

/-- Captured groups: most recent first. -/
abbrev Caps := List (Nat × List Char)

/-- Greedy `p*`: try consuming as many `p`-characters as possible, giving
back one at a time on continuation failure. -/
def starGreedy (p : Char → Bool) : List Char → Caps → (List Char → Caps → Option Caps) → Option Caps
  | [], c, k => k [] c
  | ch :: rest, c, k =>
    if p ch then (starGreedy p rest c k).orElse fun _ => k (ch :: rest) c
    else k (ch :: rest) c

def mtch : RE → List Char → Caps → (List Char → Caps → Option Caps) → Option Caps
  | .eps, s, c, k => k s c
  | .cls p, s, c, k =>
    match s with
    | [] => none
    | ch :: rest => if p ch then k rest c else none
  | .seq a b, s, c, k => mtch a s c fun s1 c1 => mtch b s1 c1 k
  | .alt a b, s, c, k => (mtch a s c k).orElse fun _ => mtch b s c k
  | .opt a, s, c, k => (mtch a s c k).orElse fun _ => k s c
  | .star p, s, c, k => starGreedy p s c k
  | .group n a, s, c, k =>
    mtch a s c fun s1 c1 => k s1 ((n, s.take (s.length - s1.length)) :: c1)

/-- Match `r` at the start of `s`; `anchEnd` demands the match reach the
end of the string (a trailing `$`). -/
def matchAt (r : RE) (anchEnd : Bool) (s : List Char) : Option Caps :=
  mtch r s [] fun rest caps =>
    if anchEnd then (if rest.isEmpty then some caps else none) else some caps

/-- `re.search` for an unanchored pattern: leftmost starting position wins. -/
def searchFrom (r : RE) : List Char → Option Caps
  | [] => matchAt r false []
  | c :: cs => (matchAt r false (c :: cs)).orElse fun _ => searchFrom r cs

/-- A registered pattern: the 27 regexes are either fully anchored
(`^...$`) or have no anchors at all. -/
structure Pat where
  anchored : Bool
  re : RE

def reSearchP (p : Pat) (s : List Char) : Option Caps :=
  if p.anchored then matchAt p.re true s else searchFrom p.re s

/-- `match.group n` (most recent capture of group `n`). -/
def grp (c : Caps) (n : Nat) : Option (List Char) :=
  (c.find? (fun pr => pr.1 = n)).map (fun pr => pr.2)

/-- A mandatory group: always present when the pattern matched. -/
def gstr (c : Caps) (n : Nat) : List Char :=
  (grp c n).getD []

/-! ### Regex construction helpers -/

def chrRE (c : Char) : RE := .cls (fun x => x = c)

def seqAll (l : List RE) : RE := l.foldr .seq .eps

def litRE (s : String) : RE := seqAll (s.toList.map chrRE)

def dig : RE := .cls Char.isDigit

def dig2 : RE := seqAll [dig, dig]

def dig3 : RE := seqAll [dig, dig, dig]

def dig4 : RE := seqAll [dig, dig, dig, dig]

/-- `\d{1,2}`, greedy. -/
def dig12 : RE := .seq dig (.opt dig)

def spRE : RE := .cls isSpaceCh

/-- `[-\s]`. -/
def dashSp : RE := .cls (fun c => c = '-' || isSpaceCh c)

/-- `[?-]`. -/
def qDash : RE := .cls (fun c => c = '?' || c = '-')

/-- `p+`, greedy. -/
def plusRE (p : Char → Bool) : RE := .seq (.cls p) (.star p)

/-! ### Python `datetime` / `calendar` models -/

/-- `calendar.isleap`. -/
def pyIsLeap (y : Nat) : Bool :=
  y % 4 = 0 && (y % 100 ≠ 0 || y % 400 = 0)

/-- `calendar.mdays[m]` (0 for an out-of-range month index). -/
def mdaysVal : Nat → Nat
  | 1 => 31 | 2 => 28 | 3 => 31 | 4 => 30 | 5 => 31 | 6 => 30
  | 7 => 31 | 8 => 31 | 9 => 30 | 10 => 31 | 11 => 30 | 12 => 31
  | _ => 0

/-- The day count returned by `calendar.monthrange(y, m)`. -/
def pyMonthLen (y m : Nat) : Nat :=
  mdaysVal m + (if m = 2 && pyIsLeap y then 1 else 0)

/-- Validity of `datetime(y, m, d)` (raises `ValueError` otherwise). -/
def validYMD (y m d : Nat) : Bool :=
  1 ≤ y && y ≤ 9999 && 1 ≤ m && m ≤ 12 && 1 ≤ d && d ≤ pyMonthLen y m

/-- Decimal value of a known-digit character list (`int(...)`). -/
def pyInt (l : List Char) : Nat :=
  l.foldl (fun a c => 10 * a + digitVal c) 0

/-- `strftime("%Y-%m-%d")`: `%m`/`%d` are zero-padded to two digits; glibc
`%Y` prints the year unpadded (4 digits for every year ≥ 1000). -/
def fmtYmd (y m d : Nat) : List Char :=
  pyRepr y ++ '-' :: pad2 m ++ '-' :: pad2 d

/-- `strftime("%Y-%m")`. -/
def fmtYm (y m : Nat) : List Char :=
  pyRepr y ++ '-' :: pad2 m

/-! ### `strptime` transcription

CPython's `_strptime` compiles each format into one regex (matched at the
start, then required to consume the whole string) built from these token
regexes, and finally constructs `datetime(year, month, day)`:

  `%Y` → four digits; `%y` → two digits, pivoted 00–68 → 2000s, 69–99 →
  1900s; `%m` → `1[0-2]|0[1-9]|[1-9]`; `%d` → `3[0-1]|[1-2]d|0[1-9]|[1-9]|
  <space>[1-9]`; `%B` → the twelve English month names, case-insensitive;
  whitespace in the format → `\s+`; other characters are literals.

In every format used here each `%m`/`%d` token is followed by a separator,
a letter, or the end of the string — never by a digit — so the regex
backtracking between the two-digit and one-digit alternatives is
deterministic and the token parsers below can commit greedily. -/

/-- Exactly four digits (`%Y`). -/
def takeDig4 : List Char → Option (Nat × List Char)
  | a :: b :: c :: d :: rest =>
    if a.isDigit && b.isDigit && c.isDigit && d.isDigit then
      some (1000 * digitVal a + 100 * digitVal b + 10 * digitVal c + digitVal d, rest)
    else none
  | _ => none

/-- Exactly two digits (`%y`). -/
def takeDig2 : List Char → Option (Nat × List Char)
  | a :: b :: rest =>
    if a.isDigit && b.isDigit then some (10 * digitVal a + digitVal b, rest) else none
  | _ => none

/-- `%m`: `1[0-2]|0[1-9]|[1-9]`. -/
def takeMon : List Char → Option (Nat × List Char)
  | a :: b :: rest =>
    if a = '1' && ('0' ≤ b && b ≤ '2') then some (10 + digitVal b, rest)
    else if a = '0' && ('1' ≤ b && b ≤ '9') then some (digitVal b, rest)
    else if '1' ≤ a && a ≤ '9' then some (digitVal a, b :: rest)
    else none
  | [a] => if '1' ≤ a && a ≤ '9' then some (digitVal a, []) else none
  | [] => none

/-- `%d`: `3[0-1]|[1-2]\d|0[1-9]|[1-9]|<space>[1-9]`. -/
def takeDay : List Char → Option (Nat × List Char)
  | a :: b :: rest =>
    if a = '3' && ('0' ≤ b && b ≤ '1') then some (30 + digitVal b, rest)
    else if ('1' ≤ a && a ≤ '2') && b.isDigit then some (10 * digitVal a + digitVal b, rest)
    else if a = '0' && ('1' ≤ b && b ≤ '9') then some (digitVal b, rest)
    else if '1' ≤ a && a ≤ '9' then some (digitVal a, b :: rest)
    else if a = ' ' && ('1' ≤ b && b ≤ '9') then some (digitVal b, rest)
    else none
  | [a] => if '1' ≤ a && a ≤ '9' then some (digitVal a, []) else none
  | [] => none

/-- A literal character in the format. -/
def takeCh (c : Char) : List Char → Option (List Char)
  | x :: rest => if x = c then some rest else none
  | [] => none

/-- Whitespace in the format: `\s+`, greedy. -/
def takeSp1 : List Char → Option (List Char)
  | c :: cs => if isSpaceCh c then some (cs.dropWhile isSpaceCh) else none
  | [] => none

/-- The `%B` month names in `_strptime`'s alternation order (sorted by
length, longest first; they are mutually prefix-free). -/
def monthNameTable : List (List Char × Nat) :=
  [ ("september".toList, 9), ("february".toList, 2), ("november".toList, 11),
    ("december".toList, 12), ("january".toList, 1), ("october".toList, 10),
    ("august".toList, 8), ("march".toList, 3), ("april".toList, 4),
    ("june".toList, 6), ("july".toList, 7), ("may".toList, 5) ]

/-- `%B`, case-insensitive. -/
def takeMonthName (s : List Char) : Option (Nat × List Char) :=
  (monthNameTable.find? (fun pr => pr.1.isPrefixOf (lowerL s))).map
    (fun pr => (pr.2, s.drop pr.1.length))

/-- `datetime.strptime(s, "%Y-%m-%d")`, as `none` on `ValueError`. -/
def strptimeYmd (s : List Char) : Option (Nat × Nat × Nat) := do
  let (y, r) ← takeDig4 s
  let r ← takeCh '-' r
  let (m, r) ← takeMon r
  let r ← takeCh '-' r
  let (d, r) ← takeDay r
  if r.isEmpty && validYMD y m d then some (y, m, d) else none

/-- `datetime.strptime(s, "%m/%d/%Y")`. -/
def strptimeMdY (s : List Char) : Option (Nat × Nat × Nat) := do
  let (m, r) ← takeMon s
  let r ← takeCh '/' r
  let (d, r) ← takeDay r
  let r ← takeCh '/' r
  let (y, r) ← takeDig4 r
  if r.isEmpty && validYMD y m d then some (y, m, d) else none

/-- The `%y` century pivot: 00–68 → 2000s, 69–99 → 1900s. -/
def pivotY (y2 : Nat) : Nat :=
  if y2 ≤ 68 then y2 + 2000 else y2 + 1900

/-- `datetime.strptime(s, "%m/%d/%y")`. -/
def strptimeMdy (s : List Char) : Option (Nat × Nat × Nat) := do
  let (m, r) ← takeMon s
  let r ← takeCh '/' r
  let (d, r) ← takeDay r
  let r ← takeCh '/' r
  let (y2, r) ← takeDig2 r
  let y := pivotY y2
  if r.isEmpty && validYMD y m d then some (y, m, d) else none

/-- `datetime.strptime(s, "%Y %B %d")`. -/
def strptimeYBd (s : List Char) : Option (Nat × Nat × Nat) := do
  let (y, r) ← takeDig4 s
  let r ← takeSp1 r
  let (m, r) ← takeMonthName r
  let r ← takeSp1 r
  let (d, r) ← takeDay r
  if r.isEmpty && validYMD y m d then some (y, m, d) else none

/-- `datetime.strptime(s, "%Y %B%d")`. -/
def strptimeYBd2 (s : List Char) : Option (Nat × Nat × Nat) := do
  let (y, r) ← takeDig4 s
  let r ← takeSp1 r
  let (m, r) ← takeMonthName r
  let (d, r) ← takeDay r
  if r.isEmpty && validYMD y m d then some (y, m, d) else none

/-- `datetime.strptime(s, "%Y %B")`. -/
def strptimeYB (s : List Char) : Option (Nat × Nat) := do
  let (y, r) ← takeDig4 s
  let r ← takeSp1 r
  let (m, r) ← takeMonthName r
  if r.isEmpty && validYMD y m 1 then some (y, m) else none

/-- `datetime.strptime(s, "%B %Y")`. -/
def strptimeBY (s : List Char) : Option (Nat × Nat) := do
  let (m, r) ← takeMonthName s
  let r ← takeSp1 r
  let (y, r) ← takeDig4 r
  if r.isEmpty && validYMD y m 1 then some (y, m) else none

/-- `datetime.strptime(s, "%B %d %Y")`. -/
def strptimeBdY (s : List Char) : Option (Nat × Nat × Nat) := do
  let (m, r) ← takeMonthName s
  let r ← takeSp1 r
  let (d, r) ← takeDay r
  let r ← takeSp1 r
  let (y, r) ← takeDig4 r
  if r.isEmpty && validYMD y m d then some (y, m, d) else none

/-! ### Exceptions and results -/

/-- The Python exceptions that can escape the core functions. -/
inductive PyExc where
  | valueError : PyExc
  | indexError : PyExc
  | normalizeDateException : String → PyExc
deriving DecidableEq

/-- A resolved `(start, end)` pair; `none` is Python `None`. -/
abbrev Rng := Option String × Option String

instance instDecEqExcept {ε α : Type} [DecidableEq ε] [DecidableEq α] :
    DecidableEq (Except ε α) := fun x y =>
  match x, y with
  | .ok a, .ok b =>
    match decEq a b with
    | isTrue h => isTrue (h ▸ rfl)
    | isFalse h => isFalse (fun hh => h (Except.ok.inj hh))
  | .error a, .error b =>
    match decEq a b with
    | isTrue h => isTrue (h ▸ rfl)
    | isFalse h => isFalse (fun hh => h (Except.error.inj hh))
  | .ok _, .error _ => isFalse (fun hh => Except.noConfusion hh)
  | .error _, .ok _ => isFalse (fun hh => Except.noConfusion hh)

/-- `month_lookup` of patterns 23–26:
`calendar.month_name[i].lower() -> i`. -/
def monthLookup (name : List Char) : Option Nat :=
  match (monthNameTable.find? (fun pr => pr.1 = name)).map (fun pr => pr.2) with
  | some n => some n
  | none => none

/-! ### The 27 pattern handlers

Each `patK` is the transcription of the `@regex(...)` pattern of
`patternK`, and `handlerK` the transcription of its body, taking the
cleaned string and the captures. -/

abbrev Handler := List Char → Caps → Except PyExc Rng

def pat1 : Pat :=
  ⟨false, seqAll [.cls (fun c => c = 'B' || c = 'b'), litRE "etween ",
                  .group 1 dig4, chrRE ' ', .cls (fun c => c = 'A' || c = 'a'),
                  litRE "nd ", .group 2 dig4]⟩

def handler1 : Handler := fun _ c =>
  .ok (some ⟨gstr c 1 ++ "-01-01".toList⟩, some ⟨gstr c 2 ++ "-12-31".toList⟩)

def pat2 : Pat := ⟨true, seqAll [.group 1 dig3, chrRE '-']⟩

def handler2 : Handler := fun _ c =>
  .ok (some ⟨gstr c 1 ++ "0-01-01".toList⟩, some ⟨gstr c 1 ++ "9-12-31".toList⟩)

def pat3 : Pat :=
  ⟨false, seqAll [.cls (fun c => c = 'A' || c = 'a'), litRE "fter ", .group 1 dig4]⟩

def handler3 : Handler := fun _ c =>
  .ok (some ⟨gstr c 1 ++ "-12-31".toList⟩, none)

def pat4 : Pat :=
  ⟨false, seqAll [.cls (fun c => c = 'B' || c = 'b'), litRE "efore ", .group 1 dig4]⟩

def handler4 : Handler := fun _ c =>
  .ok (none, some ⟨gstr c 1 ++ "-01-01".toList⟩)

def pat5 : Pat :=
  ⟨false, seqAll [.group 1 dig4, litRE " or ", .group 2 dig4]⟩

def handler5 : Handler := fun _ c =>
  .ok (some ⟨gstr c 1 ++ "-01-01".toList⟩, some ⟨gstr c 2 ++ "-12-31".toList⟩)

def pat6 : Pat := ⟨false, seqAll [.group 1 dig4, chrRE '?']⟩

def handler6 : Handler := fun _ c =>
  .ok (some ⟨gstr c 1 ++ "-01-01".toList⟩, some ⟨gstr c 1 ++ "-12-31".toList⟩)

def pat7 : Pat :=
  ⟨true, seqAll [.group 1 dig4, .opt (chrRE '\''), .cls (fun c => c = '-' || c = 's')]⟩

/-- `'1950-' | '1950s'` → start of the year, end of its decade
(`group(1)[:-1] + "9-12-31"`). -/
def handler7 : Handler := fun _ c =>
  .ok (some ⟨gstr c 1 ++ "-01-01".toList⟩, some ⟨(gstr c 1).dropLast ++ "9-12-31".toList⟩)

def pat8 : Pat := ⟨true, seqAll [.group 1 dig2, qDash, .opt qDash]⟩

def handler8 : Handler := fun _ c =>
  .ok (some ⟨gstr c 1 ++ "00-01-01".toList⟩, some ⟨gstr c 1 ++ "99-12-31".toList⟩)

def pat9 : Pat :=
  ⟨true, seqAll [.group 1 dig2, litRE "---", .group 2 dig2, litRE "--"]⟩

def handler9 : Handler := fun _ c =>
  .ok (some ⟨gstr c 1 ++ "00-01-01".toList⟩, some ⟨gstr c 2 ++ "99-12-31".toList⟩)

def pat10 : Pat :=
  ⟨true, seqAll [.group 1 dig3, litRE "--", .group 2 dig2, litRE "--"]⟩

def handler10 : Handler := fun _ c =>
  .ok (some ⟨gstr c 1 ++ "0-01-01".toList⟩, some ⟨gstr c 2 ++ "99-12-31".toList⟩)

def pat11 : Pat :=
  ⟨true, seqAll [.group 1 dig2, litRE "---", .group 2 dig3, chrRE '-']⟩

def handler11 : Handler := fun _ c =>
  .ok (some ⟨gstr c 1 ++ "00-01-01".toList⟩, some ⟨gstr c 2 ++ "9-12-31".toList⟩)

def pat12 : Pat :=
  ⟨true, seqAll [.group 1 dig4, chrRE '-', .group 2 dig2, litRE "--"]⟩

def handler12 : Handler := fun _ c =>
  .ok (some ⟨gstr c 1 ++ "-01-01".toList⟩, some ⟨gstr c 2 ++ "99-12-31".toList⟩)

def pat13 : Pat :=
  ⟨true, seqAll [.group 1 dig2, litRE "---", .group 2 dig4]⟩

def handler13 : Handler := fun _ c =>
  .ok (some ⟨gstr c 1 ++ "00-01-01".toList⟩, some ⟨gstr c 2 ++ "-12-31".toList⟩)

def pat14 : Pat :=
  ⟨true, seqAll [.group 1 dig3, litRE "--", .group 2 dig3, chrRE '-']⟩

def handler14 : Handler := fun _ c =>
  .ok (some ⟨gstr c 1 ++ "0-01-01".toList⟩, some ⟨gstr c 2 ++ "9-12-31".toList⟩)

def pat15 : Pat :=
  ⟨true, seqAll [.group 1 dig4, chrRE '-', .group 2 dig3, chrRE '-']⟩

def handler15 : Handler := fun _ c =>
  .ok (some ⟨gstr c 1 ++ "-01-01".toList⟩, some ⟨gstr c 2 ++ "9-12-31".toList⟩)

def pat16 : Pat :=
  ⟨true, seqAll [.group 1 dig3, litRE "--", .group 2 dig4]⟩

def handler16 : Handler := fun _ c =>
  .ok (some ⟨gstr c 1 ++ "0-01-01".toList⟩, some ⟨gstr c 2 ++ "-12-31".toList⟩)

def pat17 : Pat :=
  ⟨true, seqAll [.group 1 dig4, .opt (.group 2 spRE), chrRE '-',
                 .opt (.group 3 spRE), .group 4 dig4]⟩

def handler17 : Handler := fun _ c =>
  .ok (some ⟨gstr c 1 ++ "-01-01".toList⟩, some ⟨gstr c 4 ++ "-12-31".toList⟩)

def pat18 : Pat :=
  ⟨true, seqAll [.group 1 dig12, chrRE '/', .group 2 dig12, chrRE '/', .group 3 dig4]⟩

/-- `mm/dd/yyyy`: re-parses the whole string with `strptime`; an invalid
calendar date raises an uncaught `ValueError`. -/
def handler18 : Handler := fun l _ =>
  match strptimeMdY l with
  | some (y, m, d) => .ok (some ⟨fmtYmd y m d⟩, none)
  | none => .error .valueError

def pat19 : Pat :=
  ⟨true, seqAll [.group 1 dig12, chrRE '/', .group 2 dig12, chrRE '/', .group 3 dig2]⟩

def handler19 : Handler := fun l _ =>
  match strptimeMdy l with
  | some (y, m, d) => .ok (some ⟨fmtYmd y m d⟩, none)
  | none => .error .valueError

def pat20 : Pat :=
  ⟨true, seqAll [.group 1 dig12, chrRE '/', .group 2 dig12, chrRE '/', .group 3 dig4,
                 spRE,
                 .group 4 dig12, chrRE '/', .group 5 dig12, chrRE '/', .group 6 dig4]⟩

/-- Splits on the literal space (`date_str.split(" ")`) and `strptime`s the
two halves. -/
def handler20 : Handler := fun l _ =>
  match List.splitOn ' ' l with
  | a :: b :: _ =>
    match strptimeMdY a, strptimeMdY b with
    | some (y1, m1, d1), some (y2, m2, d2) =>
      .ok (some ⟨fmtYmd y1 m1 d1⟩, some ⟨fmtYmd y2 m2 d2⟩)
    | _, _ => .error .valueError
  | _ => .error .indexError

def pat21 : Pat := ⟨true, .group 1 dig4⟩

def handler21 : Handler := fun _ c =>
  .ok (some ⟨gstr c 1 ++ "-01-01".toList⟩, some ⟨gstr c 1 ++ "-12-31".toList⟩)

def pat22 : Pat :=
  ⟨true, seqAll [.group 1 dig4, spRE, .group 2 dig4]⟩

def handler22 : Handler := fun _ c =>
  .ok (some ⟨gstr c 1 ++ "-01-01".toList⟩, some ⟨gstr c 2 ++ "-12-31".toList⟩)

def pat23 : Pat :=
  ⟨true, seqAll [.group 1 dig4, .opt dashSp, .group 2 (plusRE isLowerAlpha),
                 plusRE isSpaceCh,
                 .group 3 dig4, .opt dashSp, .group 4 (plusRE isLowerAlpha)]⟩

def handler23 : Handler := fun l c =>
  let y1 := pyInt (gstr c 1)
  let y2 := pyInt (gstr c 3)
  match monthLookup (lowerL (gstr c 2)), monthLookup (lowerL (gstr c 4)) with
  | some m1, some m2 =>
    .ok (some ⟨pyRepr y1 ++ '-' :: pad2 m1 ++ "-01".toList⟩,
         some ⟨pyRepr y2 ++ '-' :: pad2 m2 ++ '-' :: pad2 (pyMonthLen y2 m2)⟩)
  | _, _ =>
    .error (.normalizeDateException
      ("DATE NOT NORMALIZED: Unknown month name(s) in '" ++ ⟨l⟩ ++ "'"))

def pat24 : Pat :=
  ⟨true, seqAll [.group 1 dig4, .opt dashSp, .group 2 (plusRE isLowerAlpha),
                 .opt dashSp, .group 3 dig12,
                 plusRE isSpaceCh,
                 .group 4 dig4, .opt dashSp, .group 5 (plusRE isLowerAlpha),
                 .opt dashSp, .group 6 dig12]⟩

def handler24 : Handler := fun l c =>
  let y1 := pyInt (gstr c 1)
  let d1 := pyInt (gstr c 3)
  let y2 := pyInt (gstr c 4)
  let d2 := pyInt (gstr c 6)
  match monthLookup (lowerL (gstr c 2)), monthLookup (lowerL (gstr c 5)) with
  | some m1, some m2 =>
    if validYMD y1 m1 d1 && validYMD y2 m2 d2 then
      .ok (some ⟨fmtYmd y1 m1 d1⟩, some ⟨fmtYmd y2 m2 d2⟩)
    else
      .error (.normalizeDateException
        ("DATE NOT NORMALIZED: Invalid day for month/year in '" ++ ⟨l⟩ ++ "'"))
  | _, _ =>
    .error (.normalizeDateException
      ("DATE NOT NORMALIZED: Unknown month name(s) in '" ++ ⟨l⟩ ++ "'"))

def pat25 : Pat :=
  ⟨true, seqAll [.group 1 dig4, .opt dashSp, .group 2 (plusRE isLowerAlpha),
                 .opt (.seq (.opt dashSp) (.group 3 dig12)),
                 plusRE isSpaceCh,
                 .group 4 dig4, .opt dashSp, .group 5 (plusRE isLowerAlpha),
                 .opt (.seq (.opt dashSp) (.group 6 dig12))]⟩

def handler25 : Handler := fun l c =>
  let y1 := pyInt (gstr c 1)
  let y2 := pyInt (gstr c 4)
  match monthLookup (lowerL (gstr c 2)), monthLookup (lowerL (gstr c 5)) with
  | some m1, some m2 =>
    let d1 := match grp c 3 with | some s => pyInt s | none => 1
    let d2 := match grp c 6 with | some s => pyInt s | none => pyMonthLen y2 m2
    if validYMD y1 m1 d1 && validYMD y2 m2 d2 then
      .ok (some ⟨fmtYmd y1 m1 d1⟩, some ⟨fmtYmd y2 m2 d2⟩)
    else
      .error (.normalizeDateException
        ("DATE NOT NORMALIZED: Invalid day for month/year in '" ++ ⟨l⟩ ++ "'"))
  | _, _ =>
    .error (.normalizeDateException
      ("DATE NOT NORMALIZED: Unknown month name(s) in '" ++ ⟨l⟩ ++ "'"))

def pat26 : Pat :=
  ⟨true, seqAll [.group 1 dig4, plusRE isSpaceCh,
                 .group 2 dig4, .opt dashSp, .group 3 (plusRE isLowerAlpha),
                 .opt (.seq (.opt dashSp) (.group 4 dig12))]⟩

def handler26 : Handler := fun l c =>
  let y1 := pyInt (gstr c 1)
  let y2 := pyInt (gstr c 2)
  match monthLookup (lowerL (gstr c 3)) with
  | some m2 =>
    let d2 := match grp c 4 with | some s => pyInt s | none => pyMonthLen y2 m2
    if validYMD y2 m2 d2 then
      .ok (some ⟨pyRepr y1 ++ "-01-01".toList⟩, some ⟨fmtYmd y2 m2 d2⟩)
    else
      .error (.normalizeDateException
        ("DATE NOT NORMALIZED: Invalid day for month/year in '" ++ ⟨l⟩ ++ "'"))
  | none =>
    .error (.normalizeDateException
      ("DATE NOT NORMALIZED: Unknown month name in '" ++ ⟨l⟩ ++ "'"))

def pat27 : Pat :=
  ⟨true, seqAll [.group 1 dig3, .star isSpaceCh, chrRE '-', .star isSpaceCh,
                 .group 2 dig3, .star isSpaceCh, chrRE '-']⟩

def handler27 : Handler := fun _ c =>
  .ok (some ⟨gstr c 1 ++ "0-01-01".toList⟩, some ⟨gstr c 2 ++ "9-12-31".toList⟩)

/-! ### The registry and `date_parse`

`add_patterns` collects the handlers with `inspect.getmembers`, which
returns the module's functions sorted by name, so the registry order is
the lexicographic order of the function names:
pattern1, pattern10, …, pattern19, pattern2, pattern20, …, pattern27,
pattern3, …, pattern9 — not their declaration order. -/

def registry : List (Pat × Handler) :=
  [ (pat1, handler1),
    (pat10, handler10), (pat11, handler11), (pat12, handler12),
    (pat13, handler13), (pat14, handler14), (pat15, handler15),
    (pat16, handler16), (pat17, handler17), (pat18, handler18),
    (pat19, handler19),
    (pat2, handler2),
    (pat20, handler20), (pat21, handler21), (pat22, handler22),
    (pat23, handler23), (pat24, handler24), (pat25, handler25),
    (pat26, handler26), (pat27, handler27),
    (pat3, handler3), (pat4, handler4), (pat5, handler5),
    (pat6, handler6), (pat7, handler7), (pat8, handler8), (pat9, handler9) ]

def runPatterns : List (Pat × Handler) → List Char → Option (Except PyExc Rng)
  | [], _ => none
  | (p, h) :: rest, l =>
    match reSearchP p l with
    | some caps => some (h l caps)
    | none => runPatterns rest l

/-- `long_months` (title-cased names used for the fallback containment
check). -/
def longMonths : List String :=
  ["January", "February", "March", "April", "May", "June", "July",
   "August", "September", "October", "November", "December"]

/-- Fallback template 1: `normalize_year_month_day` ("%Y %B %d", then
"%Y %B%d"); returns an exact start date and a `None` end. -/
def normalize_year_month_day (l : List Char) : Except PyExc Rng :=
  match strptimeYBd l with
  | some (y, m, d) => .ok (some ⟨fmtYmd y m d⟩, none)
  | none =>
    match strptimeYBd2 l with
    | some (y, m, d) => .ok (some ⟨fmtYmd y m d⟩, none)
    | none => .error .valueError

/-- Fallback template 2: `normalize_year_month` ("%Y %B"); the end day is
`calendar.monthrange`'s month length, formatted with plain `format`. -/
def normalize_year_month (l : List Char) : Except PyExc Rng :=
  match strptimeYB l with
  | some (y, m) =>
    .ok (some ⟨fmtYm y m ++ "-01".toList⟩,
         some ⟨fmtYm y m ++ '-' :: pyRepr (pyMonthLen y m)⟩)
  | none => .error .valueError

/-- Fallback template 3: `normalize_month_year` ("%B %Y"). -/
def normalize_month_year (l : List Char) : Except PyExc Rng :=
  match strptimeBY l with
  | some (y, m) =>
    .ok (some ⟨fmtYm y m ++ "-01".toList⟩,
         some ⟨fmtYm y m ++ '-' :: pyRepr (pyMonthLen y m)⟩)
  | none => .error .valueError

/-- Fallback template 4: `normalize_month_day_year` ("%B %d %Y"). -/
def normalize_month_day_year (l : List Char) : Except PyExc Rng :=
  match strptimeBdY l with
  | some (y, m, d) => .ok (some ⟨fmtYmd y m d⟩, none)
  | none => .error .valueError

/-- `date_parse`: first matching registry pattern wins; otherwise the
title-cased string is pushed through the four fallback templates when it
contains a full month name (the Python loop retries the same four
templates for each contained month name, which cannot change the outcome,
so a single round is an equivalent model); otherwise
`NormalizeDateException` is raised.  Exceptions escape `date_parse`. -/
def date_parse_chars (l : List Char) : Except PyExc Rng :=
  match runPatterns registry l with
  | some r => r
  | none =>
    let t := titleL l
    if longMonths.any (fun m => containsSub m.toList t) then
      match normalize_year_month_day t with
      | .ok r => .ok r
      | .error _ =>
        match normalize_year_month t with
        | .ok r => .ok r
        | .error _ =>
          match normalize_month_year t with
          | .ok r => .ok r
          | .error _ =>
            match normalize_month_day_year t with
            | .ok r => .ok r
            | .error _ =>
              .error (.normalizeDateException
                ("DATE NOT NORMALIZED: No match found: " ++ ⟨t⟩))
    else
      .error (.normalizeDateException
        ("DATE NOT NORMALIZED: No match found: " ++ ⟨t⟩))

def date_parse (s : String) : Except PyExc Rng :=
  date_parse_chars s.toList

/-! ### `normalizedates.py`: the sanity filter and the entry point -/

/-- One bound's check inside `is_sane_date`: a `None` bound passes; a
string bound must `strptime` as `%Y-%m-%d` (`ValueError` → `none` here,
meaning the whole check returns `False`) and the parsed year is tested
against the window. -/
def chkB (b : Option String) : Option Bool :=
  match b with
  | none => some true
  | some s =>
    match strptimeYmd s.toList with
    | none => none
    | some (y, _, _) => some (decide (1000 ≤ y ∧ y ≤ 2100))

/-- `is_sane_date` with its default window 1000–2100: each bound that is a
string must `strptime` as `%Y-%m-%d` (else `ValueError` → `False`) and its
year must lie in the window; `None` bounds are skipped.  (The initial
`if not date_range` guard is vacuous for the 2-tuples every stage
produces: a non-empty tuple is truthy.) -/
def is_sane_date (r : Rng) : Bool :=
  match chkB r.1, chkB r.2 with
  | some a, some b => a && b
  | _, _ => false

/-- `parse_date_string`, parameterised by the vendored `daterangeparser`
collaborator (its module is not part of the sources here; `none` models
the `except Exception` branch).  A collaborator success or a `date_parse`
result is passed through `is_sane_date`; an exception raised by
`date_parse` inside the `except` block propagates to the caller. -/
def parse_date_string (drp : String → Option Rng) (s : String) :
    Except PyExc (Option (String × Option String × Option String)) :=
  let cleaned := date_clean s
  let attempt : Except PyExc Rng :=
    match drp cleaned with
    | some r => .ok r
    | none => date_parse cleaned
  match attempt with
  | .error e => .error e
  | .ok r => .ok (if is_sane_date r then some (s, r.1, r.2) else none)

/-- Modelled from the spec: the resolver for the exact-date shape
"YYYY-MM-DD" ("exact calendar date → that date / that date, both bounds
equal").  No pattern in the sources handles this shape — it belongs to the
vendored collaborator / the spec's richest pattern-table revision — so it
is transcribed from the specification's words: if the cleaned string is a
well-formed zero-padded `YYYY-MM-DD` calendar date, both bounds are that
string, otherwise the stage fails. -/
def exactDateStage (s : String) : Option Rng :=
  match s.toList with
  | [y3, y2, y1, y0, '-', m1, m0, '-', d1, d0] =>
    if [y3, y2, y1, y0, m1, m0, d1, d0].all Char.isDigit then
      let y := 1000 * digitVal y3 + 100 * digitVal y2 + 10 * digitVal y1 + digitVal y0
      let m := 10 * digitVal m1 + digitVal m0
      let d := 10 * digitVal d1 + digitVal d0
      if 1 ≤ m && m ≤ 12 && 1 ≤ d && d ≤ pyMonthLen y m then some (some s, some s)
      else none
    else none
  | _ => none

/-! ### Spec-side definitions (for refinement comparisons)

These transcribe the specification's words, to be compared against the
code-side definitions above. -/

/-- Follows the spec's words: the Gregorian leap-year rule. -/
def gregorianLeap (y : Nat) : Bool :=
  (y % 4 = 0 && y % 100 ≠ 0) || y % 400 = 0

/-- Follows the spec's words: "the last day of a month must be computed
from actual month length including leap-year rules for February". -/
def trueMonthLength (y m : Nat) : Nat :=
  if m = 2 then (if gregorianLeap y then 29 else 28)
  else if m = 4 || m = 6 || m = 9 || m = 11 then 30
  else 31

/-- Follows the spec's words for the sanity filter: a bound is acceptable
when it is a well-formed `YYYY-MM-DD` calendar date whose year lies in the
default window 1000–2100. -/
def wellFormedInWindow (y m d : Nat) : Prop :=
  1 ≤ m ∧ m ≤ 12 ∧ 1 ≤ d ∧ d ≤ trueMonthLength y m ∧ 1000 ≤ y ∧ y ≤ 2100

/-! ### Auxiliary definitions used by the claim statements -/

/-- The zero-padded `YYYY-MM-DD` string for `(y, m, d)`. -/
def mkDateC (y m d : Nat) : List Char :=
  pad4 y ++ '-' :: pad2 m ++ '-' :: pad2 d

/-- A numeric date bound rendered as the padded string. -/
def fmtB (t : Nat × Nat × Nat) : String :=
  ⟨mkDateC t.1 t.2.1 t.2.2⟩

/-- Does bound `t` stay within the widths of the padded rendering? -/
def boundedB : Option (Nat × Nat × Nat) → Prop
  | none => True
  | some (y, m, d) => y < 10000 ∧ m < 100 ∧ d < 100

/-- The spec-side rejection condition on one bound. -/
def badB : Option (Nat × Nat × Nat) → Prop
  | none => False
  | some (y, m, d) => ¬ wellFormedInWindow y m d

/-- Does the registry entry at position `i` match the string? -/
def entryMatches (i : Nat) (l : List Char) : Bool :=
  match registry.get? i with
  | some e => (reSearchP e.1 l).isSome
  | none => false

/-- The result of resolving via the registry entry at position `i`. -/
def resolveVia (i : Nat) (l : List Char) : Option (Except PyExc Rng) :=
  match registry.get? i with
  | some e => (reSearchP e.1 l).map (e.2 l)
  | none => none

/-- A string on which every stage of `date_clean` is the identity:
already stripped and lower-cased, containing no literal junk substring and
no word-bounded month abbreviation. -/
def cleanFixed (l : List Char) : Bool :=
  (stripL l == l) && (lowerL l == l)
    && subsList.all (fun pr => containsSub pr.1 l == false)
    && reSubsList.all (fun pr => wordFind pr.1 none l == false)

/-- The title-cased English month names, by month number. -/
def monthTitleName : Nat → List Char
  | 1 => "January".toList | 2 => "February".toList | 3 => "March".toList
  | 4 => "April".toList | 5 => "May".toList | 6 => "June".toList
  | 7 => "July".toList | 8 => "August".toList | 9 => "September".toList
  | 10 => "October".toList | 11 => "November".toList | 12 => "December".toList
  | _ => []

/-- The lower-cased English month names, by month number. -/
def monthLowerName : Nat → List Char
  | 1 => "january".toList | 2 => "february".toList | 3 => "march".toList
  | 4 => "april".toList | 5 => "may".toList | 6 => "june".toList
  | 7 => "july".toList | 8 => "august".toList | 9 => "september".toList
  | 10 => "october".toList | 11 => "november".toList | 12 => "december".toList
  | _ => []

/-! ### Lemma kit: digit characters -/

theorem digit_ne {c : Char} (h : c.isDigit = true) (C : Char) (hC : C.isDigit = false) :
    (c = C) ↔ False := by
  simp only [iff_false]
  intro he; subst he; rw [h] at hC; cases hC

theorem digit_ne2 {c : Char} (h : c.isDigit = true) (C : Char) (hC : C.isDigit = false) :
    (C = c) ↔ False := by
  simp only [iff_false]
  intro he; subst he; rw [hC] at h; cases h

theorem digit_toNat {c : Char} (h : c.isDigit = true) : 48 ≤ c.toNat ∧ c.toNat ≤ 57 := by
  unfold Char.isDigit at h; simp at h; exact h

theorem digit_cases {c : Char} (h : c.isDigit = true) :
    c = '0' ∨ c = '1' ∨ c = '2' ∨ c = '3' ∨ c = '4' ∨ c = '5' ∨ c = '6' ∨ c = '7' ∨
    c = '8' ∨ c = '9' := by
  obtain ⟨h1, h2⟩ := digit_toNat h
  have hchar : ∀ d : Char, c.toNat = d.toNat → c = d := by
    intro d hd
    exact Char.ext (UInt32.ext hd)
  rcases (by omega :
      c.toNat = 48 ∨ c.toNat = 49 ∨ c.toNat = 50 ∨ c.toNat = 51 ∨ c.toNat = 52 ∨
      c.toNat = 53 ∨ c.toNat = 54 ∨ c.toNat = 55 ∨ c.toNat = 56 ∨ c.toNat = 57) with
    h'|h'|h'|h'|h'|h'|h'|h'|h'|h'
  · exact Or.inl (hchar _ h')
  · exact Or.inr (Or.inl (hchar _ h'))
  · exact Or.inr (Or.inr (Or.inl (hchar _ h')))
  · exact Or.inr (Or.inr (Or.inr (Or.inl (hchar _ h'))))
  · exact Or.inr (Or.inr (Or.inr (Or.inr (Or.inl (hchar _ h')))))
  · exact Or.inr (Or.inr (Or.inr (Or.inr (Or.inr (Or.inl (hchar _ h'))))))
  · exact Or.inr (Or.inr (Or.inr (Or.inr (Or.inr (Or.inr (Or.inl (hchar _ h')))))))
  · exact Or.inr (Or.inr (Or.inr (Or.inr (Or.inr (Or.inr (Or.inr (Or.inl (hchar _ h'))))))))
  · exact Or.inr (Or.inr (Or.inr (Or.inr (Or.inr (Or.inr (Or.inr (Or.inr (Or.inl
      (hchar _ h')))))))))
  · exact Or.inr (Or.inr (Or.inr (Or.inr (Or.inr (Or.inr (Or.inr (Or.inr (Or.inr
      (hchar _ h')))))))))

theorem digit_isSpaceCh {c : Char} (h : c.isDigit = true) : isSpaceCh c = false := by
  rcases digit_cases h with rfl|rfl|rfl|rfl|rfl|rfl|rfl|rfl|rfl|rfl <;> decide

theorem digit_isLowerAlpha {c : Char} (h : c.isDigit = true) : isLowerAlpha c = false := by
  rcases digit_cases h with rfl|rfl|rfl|rfl|rfl|rfl|rfl|rfl|rfl|rfl <;> decide

theorem digit_isAlphaCh {c : Char} (h : c.isDigit = true) : isAlphaCh c = false := by
  rcases digit_cases h with rfl|rfl|rfl|rfl|rfl|rfl|rfl|rfl|rfl|rfl <;> decide

theorem digit_isWordCh {c : Char} (h : c.isDigit = true) : isWordCh c = true := by
  rcases digit_cases h with rfl|rfl|rfl|rfl|rfl|rfl|rfl|rfl|rfl|rfl <;> decide

theorem digit_lowCh {c : Char} (h : c.isDigit = true) : lowCh c = c := by
  rcases digit_cases h with rfl|rfl|rfl|rfl|rfl|rfl|rfl|rfl|rfl|rfl <;> decide

theorem digit_beqL {c : Char} (h : c.isDigit = true) (C : Char) (hC : C.isDigit = false) :
    (c == C) = false := by
  simp [digit_ne h C hC]

theorem digit_beqR {c : Char} (h : c.isDigit = true) (C : Char) (hC : C.isDigit = false) :
    (C == c) = false := by
  simp [digit_ne2 h C hC]

/-! ### Lemma kit: rendered digits (`dChar`, `pad2`, `pad4`) -/

theorem dChar_isDigit (n : Nat) : (dChar n).isDigit = true := by
  rcases (by omega :
      n % 10 = 0 ∨ n % 10 = 1 ∨ n % 10 = 2 ∨ n % 10 = 3 ∨ n % 10 = 4 ∨ n % 10 = 5 ∨
      n % 10 = 6 ∨ n % 10 = 7 ∨ n % 10 = 8 ∨ n % 10 = 9) with
    h|h|h|h|h|h|h|h|h|h <;> simp [dChar, h]

theorem digitVal_dChar (n : Nat) : digitVal (dChar n) = n % 10 := by
  rcases (by omega :
      n % 10 = 0 ∨ n % 10 = 1 ∨ n % 10 = 2 ∨ n % 10 = 3 ∨ n % 10 = 4 ∨ n % 10 = 5 ∨
      n % 10 = 6 ∨ n % 10 = 7 ∨ n % 10 = 8 ∨ n % 10 = 9) with
    h|h|h|h|h|h|h|h|h|h <;> simp [dChar, h] <;> decide

theorem takeDig4_pad4 (y : Nat) (hy : y < 10000) (rest : List Char) :
    takeDig4 (pad4 y ++ rest) = some (y, rest) := by
  simp [pad4, takeDig4, dChar_isDigit, digitVal_dChar]
  omega

theorem takeDig2_pad2 (y : Nat) (hy : y < 100) (rest : List Char) :
    takeDig2 (pad2 y ++ rest) = some (y, rest) := by
  simp [pad2, takeDig2, dChar_isDigit, digitVal_dChar]
  omega

theorem takeMon_pad2 (m : Nat) (hm : m < 100) (rest : List Char) :
    takeMon (pad2 m ++ rest) =
      if 1 ≤ m ∧ m ≤ 12 then some (m, rest)
      else if 1 ≤ m / 10 then some (m / 10, dChar m :: rest) else none := by
  interval_cases m <;> simp +decide [takeMon, pad2, dChar]

theorem takeDay_pad2 (d : Nat) (hd : d < 100) (rest : List Char) :
    takeDay (pad2 d ++ rest) =
      if 1 ≤ d ∧ d ≤ 31 then some (d, rest)
      else if 1 ≤ d / 10 then some (d / 10, dChar d :: rest) else none := by
  interval_cases d <;> simp +decide [takeDay, pad2, dChar]

theorem pyMonthLen_bounds (y m : Nat) (h1 : 1 ≤ m) (h2 : m ≤ 12) :
    28 ≤ pyMonthLen y m ∧ pyMonthLen y m ≤ 31 := by
  interval_cases m <;> simp [pyMonthLen, mdaysVal] <;> split <;> omega

theorem pyIsLeap_eq_gregorianLeap (y : Nat) : pyIsLeap y = gregorianLeap y := by
  simp only [pyIsLeap, gregorianLeap]
  by_cases h4 : y % 4 = 0 <;> by_cases h100 : y % 100 = 0 <;> by_cases h400 : y % 400 = 0 <;>
    simp [h4, h100, h400] <;> omega

theorem pyMonthLen_eq_trueMonthLength (y m : Nat) (h1 : 1 ≤ m) (h2 : m ≤ 12) :
    pyMonthLen y m = trueMonthLength y m := by
  interval_cases m <;>
    simp [pyMonthLen, mdaysVal, trueMonthLength, pyIsLeap_eq_gregorianLeap] <;>
    split <;> omega

/-- The central `strptime("%Y-%m-%d")` characterisation on padded
renderings. -/
theorem strptimeYmd_mk (y m d : Nat) (hy : y < 10000) (hm : m < 100) (hd : d < 100) :
    strptimeYmd (mkDateC y m d) =
      if 1 ≤ y ∧ 1 ≤ m ∧ m ≤ 12 ∧ 1 ≤ d ∧ d ≤ pyMonthLen y m then some (y, m, d)
      else none := by
  have h4 := takeDig4_pad4 y hy ('-' :: (pad2 m ++ '-' :: pad2 d))
  have hmon := takeMon_pad2 m hm ('-' :: pad2 d)
  have hday := takeDay_pad2 d hd []
  rw [List.append_nil] at hday
  by_cases hmo : 1 ≤ m ∧ m ≤ 12
  · rw [if_pos hmo] at hmon
    by_cases hdo : 1 ≤ d ∧ d ≤ 31
    · rw [if_pos hdo] at hday
      have hb := pyMonthLen_bounds y m hmo.1 hmo.2
      simp [strptimeYmd, mkDateC, h4, hmon, hday, takeCh, validYMD]
      split_ifs with h1 h2
      · rfl
      · exfalso; omega
      · exfalso; omega
      · rfl
    · rw [if_neg hdo] at hday
      have hne : ¬ (1 ≤ y ∧ 1 ≤ m ∧ m ≤ 12 ∧ 1 ≤ d ∧ d ≤ pyMonthLen y m) := by
        have hb := pyMonthLen_bounds y m hmo.1 hmo.2
        intro hcon; exact hdo ⟨hcon.2.2.2.1, by omega⟩
      rw [if_neg hne]
      by_cases hfall : 1 ≤ d / 10
      · rw [if_pos hfall] at hday
        simp [strptimeYmd, mkDateC, h4, hmon, hday, takeCh]
      · rw [if_neg hfall] at hday
        simp [strptimeYmd, mkDateC, h4, hmon, hday, takeCh]
  · rw [if_neg hmo] at hmon
    have hne : ¬ (1 ≤ y ∧ 1 ≤ m ∧ m ≤ 12 ∧ 1 ≤ d ∧ d ≤ pyMonthLen y m) := by
      intro hcon; exact hmo ⟨hcon.2.1, hcon.2.2.1⟩
    rw [if_neg hne]
    by_cases hfall : 1 ≤ m / 10
    · rw [if_pos hfall] at hmon
      have hdm : (dChar m = '-') ↔ False := digit_ne (dChar_isDigit m) '-' (by decide)
      simp [strptimeYmd, mkDateC, h4, hmon, takeCh, hdm]
    · rw [if_neg hfall] at hmon
      simp [strptimeYmd, mkDateC, h4, hmon, takeCh]

/-! ### Generic first-match lemma for the registry walk -/

theorem runPatterns_first (L : List (Pat × Handler)) :
    ∀ (l : List Char) (i : Nat) (r : Except PyExc Rng),
      (∀ j, j < i →
        (match L.get? j with
          | some e => (reSearchP e.1 l).isSome
          | none => false) = false) →
      (match L.get? i with
        | some e => (reSearchP e.1 l).map (e.2 l)
        | none => none) = some r →
      runPatterns L l = some r := by
  induction L with
  | nil =>
    intro l i r _ hi
    cases i <;> simp at hi
  | cons e rest ih =>
    intro l i r hprev hi
    cases i with
    | zero =>
      simp only [List.get?_cons_zero] at hi
      cases hsr : reSearchP e.1 l with
      | none => rw [hsr] at hi; simp at hi
      | some caps =>
        rw [hsr] at hi
        simp only [Option.map_some', Option.some.injEq] at hi
        simp [runPatterns, hsr, hi]
    | succ i' =>
      have h0 := hprev 0 (Nat.succ_pos _)
      simp only [List.get?_cons_zero] at h0
      cases hsr : reSearchP e.1 l with
      | some caps => rw [hsr] at h0; simp at h0
      | none =>
        simp only [List.get?_cons_succ] at hi hprev
        simp only [runPatterns, hsr]
        exact ih l i' r (fun j hj => hprev (j + 1) (by omega)) hi

/-! ### Claim C1 -/

/-- C1, counterexample.  The cleaned input "1950 or 1951 or" is matched by
the unanchored `pattern5` regex (declared 5th); under declaration-order
dispatch it would resolve via `pattern5` to `("1950-01-01", "1951-12-31")`
(registry position 22 below, the position of `pattern5` in the name-sorted
registry).  But `date_parse` dispatches to `pattern23` (declared 23rd,
alphabetically earlier), whose handler raises `NormalizeDateException` —
so the input is not resolved via the earliest-declared matching pattern. -/
theorem C1_declaration_order_counterexample :
    (reSearchP pat5 ("1950 or 1951 or").toList).isSome = true ∧
    resolveVia 22 ("1950 or 1951 or").toList =
      some (.ok (some "1950-01-01", some "1951-12-31")) ∧
    date_parse "1950 or 1951 or" =
      .error (.normalizeDateException
        "DATE NOT NORMALIZED: Unknown month name(s) in '1950 or 1951 or'") := by
  decide

/-- C1 (amended): `date_parse` resolves every input via the first matching
pattern in the name-sorted registry order that `inspect.getmembers`
produces (pattern1, pattern10, …, pattern19, pattern2, pattern20, …,
pattern27, pattern3, …, pattern9), not numeric declaration order; among
the unanchored patterns (1, 3, 4, 5, 6) the two orders coincide, so a pair
of competing unanchored patterns still resolves via the earlier-declared
one.  Formally: if no registry entry before position `i` matches and entry
`i` resolves the string to `r`, then `date_parse` returns `r`. -/
theorem C1_first_match_in_registry_order (l : List Char) (i : Nat) (r : Except PyExc Rng)
    (hprev : ∀ j, j < i → entryMatches j l = false)
    (hi : resolveVia i l = some r) :
    date_parse_chars l = r := by
  have hrun := runPatterns_first registry l i r
    (by intro j hj; have := hprev j hj; simpa [entryMatches] using this)
    (by simpa [resolveVia] using hi)
  simp [date_parse_chars, hrun]

/-- Witness for C1: "1950" is matched first at registry position 13
(`pattern21`), and `date_parse` resolves it there. -/
theorem C1_witness :
    date_parse_chars ("1950").toList = .ok (some "1950-01-01", some "1950-12-31") :=
  C1_first_match_in_registry_order ("1950").toList 13
    (.ok (some "1950-01-01", some "1950-12-31")) (by decide) (by decide)

/-! ### Claim C3 -/

/-- C3, counterexample.  "1945, 1947" cleans to "1945 1947", which
`pattern22` resolves using the SECOND captured year for the end bound:
`("1945-01-01", "1947-12-31")`, not the first year's "1945-12-31" that the
claim asserts. -/
theorem C3_second_year_counterexample :
    date_parse (date_clean "1945, 1947") = .ok (some "1945-01-01", some "1947-12-31") ∧
    date_parse (date_clean "1945, 1947") ≠ .ok (some "1945-01-01", some "1945-12-31") := by
  decide

set_option maxHeartbeats 1000000 in
theorem C3_subs_aux (a b c d e f g h : Char)
    (ha : a.isDigit = true) (hb : b.isDigit = true) (hc : c.isDigit = true)
    (hd : d.isDigit = true) (he : e.isDigit = true) (hf : f.isDigit = true)
    (hg : g.isDigit = true) (hh : h.isDigit = true) :
    applySubs [a, b, c, d, ',', ' ', e, f, g, h] = [a, b, c, d, ' ', e, f, g, h] := by
  simp +decide [applySubs, subsList, pyReplace, replaceFuel,
    ha, hb, hc, hd, he, hf, hg, hh,
    digit_ne ha, digit_ne hb, digit_ne hc, digit_ne hd,
    digit_ne he, digit_ne hf, digit_ne hg, digit_ne hh,
    digit_ne2 ha, digit_ne2 hb, digit_ne2 hc, digit_ne2 hd,
    digit_ne2 he, digit_ne2 hf, digit_ne2 hg, digit_ne2 hh,
    digit_beqL ha, digit_beqL hb, digit_beqL hc, digit_beqL hd,
    digit_beqL he, digit_beqL hf, digit_beqL hg, digit_beqL hh,
    digit_beqR ha, digit_beqR hb, digit_beqR hc, digit_beqR hd,
    digit_beqR he, digit_beqR hf, digit_beqR hg, digit_beqR hh]

set_option maxHeartbeats 1000000 in
theorem C3_resubs_aux (a b c d e f g h : Char)
    (ha : a.isDigit = true) (hb : b.isDigit = true) (hc : c.isDigit = true)
    (hd : d.isDigit = true) (he : e.isDigit = true) (hf : f.isDigit = true)
    (hg : g.isDigit = true) (hh : h.isDigit = true) :
    applyReSubs [a, b, c, d, ' ', e, f, g, h] = [a, b, c, d, ' ', e, f, g, h] := by
  simp +decide [applyReSubs, reSubsList, pyWordSub, wordSubFuel, wordHere,
    ha, hb, hc, hd, he, hf, hg, hh,
    digit_isWordCh ha, digit_isWordCh hb, digit_isWordCh hc, digit_isWordCh hd,
    digit_isWordCh he, digit_isWordCh hf, digit_isWordCh hg, digit_isWordCh hh,
    digit_ne ha, digit_ne hb, digit_ne hc, digit_ne hd,
    digit_ne he, digit_ne hf, digit_ne hg, digit_ne hh,
    digit_ne2 ha, digit_ne2 hb, digit_ne2 hc, digit_ne2 hd,
    digit_ne2 he, digit_ne2 hf, digit_ne2 hg, digit_ne2 hh,
    digit_beqL ha, digit_beqL hb, digit_beqL hc, digit_beqL hd,
    digit_beqL he, digit_beqL hf, digit_beqL hg, digit_beqL hh,
    digit_beqR ha, digit_beqR hb, digit_beqR hc, digit_beqR hd,
    digit_beqR he, digit_beqR hf, digit_beqR hg, digit_beqR hh]

theorem C3_clean_aux (a b c d e f g h : Char)
    (ha : a.isDigit = true) (hb : b.isDigit = true) (hc : c.isDigit = true)
    (hd : d.isDigit = true) (he : e.isDigit = true) (hf : f.isDigit = true)
    (hg : g.isDigit = true) (hh : h.isDigit = true) :
    date_clean_chars [a, b, c, d, ',', ' ', e, f, g, h] = [a, b, c, d, ' ', e, f, g, h] := by
  have hstrip1 : stripL [a, b, c, d, ',', ' ', e, f, g, h] =
      [a, b, c, d, ',', ' ', e, f, g, h] := by
    simp [stripL, digit_isSpaceCh ha, digit_isSpaceCh hh]
  have hlower : lowerL [a, b, c, d, ',', ' ', e, f, g, h] =
      [a, b, c, d, ',', ' ', e, f, g, h] := by
    simp [lowerL, digit_lowCh ha, digit_lowCh hb, digit_lowCh hc,
      digit_lowCh hd, digit_lowCh he, digit_lowCh hf, digit_lowCh hg, digit_lowCh hh,
      (by decide : lowCh ',' = ','), (by decide : lowCh ' ' = ' ')]
  have hstrip2 : stripL [a, b, c, d, ' ', e, f, g, h] = [a, b, c, d, ' ', e, f, g, h] := by
    simp [stripL, digit_isSpaceCh ha, digit_isSpaceCh hh]
  rw [date_clean_chars, hstrip1, hlower,
    C3_subs_aux a b c d e f g h ha hb hc hd he hf hg hh,
    C3_resubs_aux a b c d e f g h ha hb hc hd he hf hg hh, hstrip2]


set_option maxHeartbeats 1000000 in
theorem C3_dispatch_aux (a b c d e f g h : Char)
    (ha : a.isDigit = true) (hb : b.isDigit = true) (hc : c.isDigit = true)
    (hd : d.isDigit = true) (he : e.isDigit = true) (hf : f.isDigit = true)
    (hg : g.isDigit = true) (hh : h.isDigit = true) :
    date_parse_chars [a, b, c, d, ' ', e, f, g, h] =
      .ok (some ⟨[a, b, c, d] ++ "-01-01".toList⟩,
           some ⟨[e, f, g, h] ++ "-12-31".toList⟩) := by
  simp +decide [date_parse_chars, runPatterns, registry, reSearchP, matchAt, searchFrom,
    mtch, starGreedy, seqAll, litRE, chrRE, dig, dig2, dig3, dig4, dig12, spRE, dashSp,
    qDash, plusRE,
    pat1, pat2, pat3, pat4, pat5, pat6, pat7, pat8, pat9, pat10, pat11, pat12, pat13,
    pat14, pat15, pat16, pat17, pat18, pat19, pat20, pat21, pat22, pat23, pat24, pat25,
    pat26, pat27,
    handler22, gstr, grp,
    ha, hb, hc, hd, he, hf, hg, hh,
    digit_ne ha, digit_ne hb, digit_ne hc, digit_ne hd,
    digit_ne he, digit_ne hf, digit_ne hg, digit_ne hh,
    digit_ne2 ha, digit_ne2 hb, digit_ne2 hc, digit_ne2 hd,
    digit_ne2 he, digit_ne2 hf, digit_ne2 hg, digit_ne2 hh,
    digit_isSpaceCh ha, digit_isSpaceCh hb, digit_isSpaceCh hc, digit_isSpaceCh hd,
    digit_isSpaceCh he, digit_isSpaceCh hf, digit_isSpaceCh hg, digit_isSpaceCh hh,
    digit_isLowerAlpha ha, digit_isLowerAlpha hb, digit_isLowerAlpha hc,
    digit_isLowerAlpha hd, digit_isLowerAlpha he, digit_isLowerAlpha hf,
    digit_isLowerAlpha hg, digit_isLowerAlpha hh]

/-- C3 (amended): for every input of the shape "YYYY, YYYY", cleaning
removes the comma and the resulting "YYYY YYYY" resolves via `pattern22`
with start = first-year-01-01 and end = SECOND-year-12-31, exactly like
the other two-year range patterns. -/
theorem C3_comma_year_pair (a b c d e f g h : Char)
    (ha : a.isDigit = true) (hb : b.isDigit = true) (hc : c.isDigit = true)
    (hd : d.isDigit = true) (he : e.isDigit = true) (hf : f.isDigit = true)
    (hg : g.isDigit = true) (hh : h.isDigit = true) :
    date_parse_chars (date_clean_chars [a, b, c, d, ',', ' ', e, f, g, h]) =
      .ok (some ⟨[a, b, c, d] ++ "-01-01".toList⟩,
           some ⟨[e, f, g, h] ++ "-12-31".toList⟩) := by
  rw [C3_clean_aux a b c d e f g h ha hb hc hd he hf hg hh]
  exact C3_dispatch_aux a b c d e f g h ha hb hc hd he hf hg hh

/-- Witness for C3 at "1945, 1947". -/
theorem C3_witness :
    date_parse_chars (date_clean_chars ['1', '9', '4', '5', ',', ' ', '1', '9', '4', '7']) =
      .ok (some ⟨['1', '9', '4', '5'] ++ "-01-01".toList⟩,
           some ⟨['1', '9', '4', '7'] ++ "-12-31".toList⟩) :=
  C3_comma_year_pair '1' '9' '4' '5' '1' '9' '4' '7'
    (by decide) (by decide) (by decide) (by decide)
    (by decide) (by decide) (by decide) (by decide)

/-! ### Claim C4 -/

/-- C4, counterexample.  The fallback input "1950 january 1" parses via the
"Year MonthName Day" template and "january 2 1950" (the cleaned form of
"January 2, 1950") via the "MonthName Day Year" template; both return a
`None` end bound, not an end bound equal to the start date. -/
theorem C4_open_end_counterexample :
    date_parse "1950 january 1" = .ok (some "1950-01-01", none) ∧
    date_parse "1950 january 1" ≠ .ok (some "1950-01-01", some "1950-01-01") ∧
    date_parse (date_clean "January 2, 1950") = .ok (some "1950-01-02", none) := by
  decide

/-- C4 (amended): every fallback input resolved by the "Year MonthName
Day" template (`normalize_year_month_day`) or the "MonthName Day, Year"
template (`normalize_month_day_year`) yields an exact start date with a
null (open) end bound — not two equal bounds. -/
theorem C4_exact_templates_open_end (l : List Char) (r : Rng)
    (h : normalize_year_month_day l = .ok r ∨ normalize_month_day_year l = .ok r) :
    ∃ y m d, r = (some ⟨fmtYmd y m d⟩, none) := by
  rcases h with h | h
  · unfold normalize_year_month_day at h
    cases h1 : strptimeYBd l with
    | some t =>
      obtain ⟨y, m, d⟩ := t
      rw [h1] at h
      cases h
      exact ⟨y, m, d, rfl⟩
    | none =>
      rw [h1] at h
      cases h2 : strptimeYBd2 l with
      | some t =>
        obtain ⟨y, m, d⟩ := t
        rw [h2] at h
        cases h
        exact ⟨y, m, d, rfl⟩
      | none => rw [h2] at h; cases h
  · unfold normalize_month_day_year at h
    cases h1 : strptimeBdY l with
    | some t =>
      obtain ⟨y, m, d⟩ := t
      rw [h1] at h
      cases h
      exact ⟨y, m, d, rfl⟩
    | none => rw [h1] at h; cases h

/-- Witness for C4 at "1950 January 1". -/
theorem C4_witness :
    ∃ y m d, ((some "1950-01-01", none) : Rng) = (some ⟨fmtYmd y m d⟩, none) :=
  C4_exact_templates_open_end ("1950 January 1").toList (some "1950-01-01", none)
    (Or.inl (by decide))

/-! ### Claim C9 -/

/-- C9: with the (spec-modelled) collaborator failing on "unknown", the
cleaned string matches no pattern and contains no month name, so
`date_parse` raises `NormalizeDateException` — and `parse_date_string`
does NOT catch it: the exception escapes to the caller instead of the
documented `None` failure return. -/
theorem C9_uncaught_exception :
    parse_date_string (fun _ => none) "unknown" =
      .error (.normalizeDateException "DATE NOT NORMALIZED: No match found: Unknown") := by
  decide

/-! ### Claim C7 -/

theorem replaceFuel_id (pat rep : List Char) :
    ∀ (l : List Char) (fuel : Nat), l.length ≤ fuel → containsSub pat l = false →
      replaceFuel fuel l pat rep = l := by
  intro l
  induction l with
  | nil => intro fuel _ _; cases fuel <;> simp [replaceFuel]
  | cons c cs ih =>
    intro fuel hf hocc
    cases fuel with
    | zero => simp at hf
    | succ f =>
      simp only [containsSub, Bool.or_eq_false_iff] at hocc
      have hcond : (pat.isPrefixOf (c :: cs) && !pat.isEmpty) = false := by
        simp [hocc.1]
      simp only [replaceFuel, hcond, Bool.false_eq_true, if_false, List.cons.injEq,
        true_and]
      exact ih f (by simpa using Nat.le_of_succ_le_succ hf) hocc.2

theorem wordSubFuel_id (w rep : List Char) :
    ∀ (l : List Char) (fuel : Nat) (prev : Option Char), l.length ≤ fuel →
      wordFind w prev l = false → wordSubFuel w rep fuel prev l = l := by
  intro l
  induction l with
  | nil => intro fuel prev _ _; cases fuel <;> simp [wordSubFuel]
  | cons c cs ih =>
    intro fuel prev hf hocc
    cases fuel with
    | zero => simp at hf
    | succ f =>
      simp only [wordFind, Bool.or_eq_false_iff] at hocc
      simp only [wordSubFuel, hocc.1, Bool.false_eq_true, if_false, List.cons.injEq,
        true_and]
      exact ih f (some c) (by simpa using Nat.le_of_succ_le_succ hf) hocc.2

theorem date_clean_chars_fixed (l : List Char) (h : cleanFixed l = true) :
    date_clean_chars l = l := by
  simp only [cleanFixed, Bool.and_eq_true, beq_iff_eq, List.all_eq_true] at h
  obtain ⟨⟨⟨hstrip, hlow⟩, hsubs⟩, hresubs⟩ := h
  have hrep : ∀ pr ∈ subsList, pyReplace l pr.1 pr.2 = l := by
    intro pr hpr
    have := hsubs pr hpr
    simp only [beq_iff_eq] at this
    exact replaceFuel_id pr.1 pr.2 l l.length le_rfl this
  have hws : ∀ pr ∈ reSubsList, pyWordSub pr.1 pr.2 l = l := by
    intro pr hpr
    have := hresubs pr hpr
    simp only [beq_iff_eq] at this
    exact wordSubFuel_id pr.1 pr.2 l l.length none le_rfl this
  have happ : applySubs l = l := by
    simp only [applySubs, subsList] at *
    rw [List.foldl_cons, hrep _ (by simp), List.foldl_cons, hrep _ (by simp),
      List.foldl_cons, hrep _ (by simp), List.foldl_cons, hrep _ (by simp),
      List.foldl_cons, hrep _ (by simp), List.foldl_cons, hrep _ (by simp),
      List.foldl_cons, hrep _ (by simp), List.foldl_cons, hrep _ (by simp),
      List.foldl_nil]
  have happ2 : applyReSubs l = l := by
    simp only [applyReSubs, reSubsList] at *
    rw [List.foldl_cons, hws _ (by simp), List.foldl_cons, hws _ (by simp),
      List.foldl_cons, hws _ (by simp), List.foldl_cons, hws _ (by simp),
      List.foldl_cons, hws _ (by simp), List.foldl_cons, hws _ (by simp),
      List.foldl_cons, hws _ (by simp), List.foldl_cons, hws _ (by simp),
      List.foldl_cons, hws _ (by simp), List.foldl_cons, hws _ (by simp),
      List.foldl_cons, hws _ (by simp), List.foldl_cons, hws _ (by simp),
      List.foldl_nil]
  rw [date_clean_chars, hstrip, hlow, happ, happ2, hstrip]

/-- C7, counterexample.  Cleaning is not idempotent: the `-?` → `-`
substitution can create a new `-?` occurrence, so `date_clean "-??"`
yields "-?" while a second pass yields "-". -/
theorem C7_not_idempotent :
    date_clean (date_clean "-??") ≠ date_clean "-??" ∧
    date_clean "-??" = "-?" ∧ date_clean "-?" = "-" := by
  decide

/-- C7 (amended): re-cleaning is a no-op on every input whose cleaned form
is clean-stable — already stripped and lower-cased, containing no literal
junk substring and no word-bounded month abbreviation (`cleanFixed`); in
general the substitutions can create new junk (e.g. "-??" → "-?" → "-"),
so idempotence fails. -/
theorem C7_clean_idempotent_on_stable (s : String)
    (h : cleanFixed (date_clean s).toList = true) :
    date_clean (date_clean s) = date_clean s := by
  have hfix := date_clean_chars_fixed _ h
  cases hds : date_clean s with
  | mk l =>
    rw [hds] at hfix
    have hfix2 : date_clean_chars l = l := hfix
    show (⟨date_clean_chars l⟩ : String) = ⟨l⟩
    rw [hfix2]

/-- Witness for C7 at "1950 january 1". -/
theorem C7_witness :
    date_clean (date_clean "1950 january 1") = date_clean "1950 january 1" :=
  C7_clean_idempotent_on_stable "1950 january 1" (by decide)

/-! ### Claim C8 -/

set_option maxHeartbeats 1000000 in
theorem C8_clean_aux (a b c d : Char) (t : List Char)
    (ha : a.isDigit = true) (hb : b.isDigit = true) (hc : c.isDigit = true)
    (hd : d.isDigit = true) (ht : t = ['-'] ∨ t = ['-', '-']) :
    date_clean_chars ([a, b, c, d] ++ t) = [a, b, c, d] ++ t := by
  rcases ht with rfl | rfl <;>
    simp +decide [date_clean_chars, stripL, lowerL, applySubs, applyReSubs, subsList,
      reSubsList, pyReplace, replaceFuel, pyWordSub, wordSubFuel, wordHere,
      ha, hb, hc, hd,
      digit_ne ha, digit_ne hb, digit_ne hc, digit_ne hd,
      digit_ne2 ha, digit_ne2 hb, digit_ne2 hc, digit_ne2 hd,
      digit_beqL ha, digit_beqL hb, digit_beqL hc, digit_beqL hd,
      digit_beqR ha, digit_beqR hb, digit_beqR hc, digit_beqR hd,
      digit_isSpaceCh ha, digit_isSpaceCh hb, digit_isSpaceCh hc, digit_isSpaceCh hd,
      digit_isWordCh ha, digit_isWordCh hb, digit_isWordCh hc, digit_isWordCh hd,
      digit_lowCh ha, digit_lowCh hb, digit_lowCh hc, digit_lowCh hd]

set_option maxHeartbeats 1000000 in
theorem C8_dispatch_one_aux (a b c d : Char)
    (ha : a.isDigit = true) (hb : b.isDigit = true) (hc : c.isDigit = true)
    (hd : d.isDigit = true) :
    date_parse_chars [a, b, c, d, '-'] =
      .ok (some ⟨[a, b, c, d] ++ "-01-01".toList⟩,
           some ⟨[a, b, c] ++ "9-12-31".toList⟩) := by
  simp +decide [date_parse_chars, runPatterns, registry, reSearchP, matchAt, searchFrom,
    mtch, starGreedy, seqAll, litRE, chrRE, dig, dig2, dig3, dig4, dig12, spRE, dashSp,
    qDash, plusRE,
    pat1, pat2, pat3, pat4, pat5, pat6, pat7, pat8, pat9, pat10, pat11, pat12, pat13,
    pat14, pat15, pat16, pat17, pat18, pat19, pat20, pat21, pat22, pat23, pat24, pat25,
    pat26, pat27,
    handler7, gstr, grp,
    ha, hb, hc, hd,
    digit_ne ha, digit_ne hb, digit_ne hc, digit_ne hd,
    digit_ne2 ha, digit_ne2 hb, digit_ne2 hc, digit_ne2 hd,
    digit_isSpaceCh ha, digit_isSpaceCh hb, digit_isSpaceCh hc, digit_isSpaceCh hd,
    digit_isLowerAlpha ha, digit_isLowerAlpha hb, digit_isLowerAlpha hc,
    digit_isLowerAlpha hd]

set_option maxHeartbeats 1000000 in
theorem C8_dispatch_two_aux (a b c d : Char)
    (ha : a.isDigit = true) (hb : b.isDigit = true) (hc : c.isDigit = true)
    (hd : d.isDigit = true) :
    date_parse_chars [a, b, c, d, '-', '-'] =
      .error (.normalizeDateException
        ("DATE NOT NORMALIZED: No match found: " ++ ⟨[a, b, c, d, '-', '-']⟩)) := by
  simp +decide [date_parse_chars, runPatterns, registry, reSearchP, matchAt, searchFrom,
    mtch, starGreedy, seqAll, litRE, chrRE, dig, dig2, dig3, dig4, dig12, spRE, dashSp,
    qDash, plusRE,
    pat1, pat2, pat3, pat4, pat5, pat6, pat7, pat8, pat9, pat10, pat11, pat12, pat13,
    pat14, pat15, pat16, pat17, pat18, pat19, pat20, pat21, pat22, pat23, pat24, pat25,
    pat26, pat27,
    titleL, titleAux, longMonths, containsSub,
    ha, hb, hc, hd,
    digit_ne ha, digit_ne hb, digit_ne hc, digit_ne hd,
    digit_ne2 ha, digit_ne2 hb, digit_ne2 hc, digit_ne2 hd,
    digit_beqL ha, digit_beqL hb, digit_beqL hc, digit_beqL hd,
    digit_beqR ha, digit_beqR hb, digit_beqR hc, digit_beqR hd,
    digit_isSpaceCh ha, digit_isSpaceCh hb, digit_isSpaceCh hc, digit_isSpaceCh hd,
    digit_isLowerAlpha ha, digit_isLowerAlpha hb, digit_isLowerAlpha hc,
    digit_isLowerAlpha hd,
    digit_isAlphaCh ha, digit_isAlphaCh hb, digit_isAlphaCh hc, digit_isAlphaCh hd]

/-- C8, counterexample.  "1950-" resolves via `pattern7` to the DECADE
span `("1950-01-01", "1959-12-31")`, not the single year's span ending
"1950-12-31"; and "1950--" (two trailing dashes) matches no pattern at all
and raises `NormalizeDateException`. -/
theorem C8_trailing_dash_counterexample :
    date_parse "1950-" = .ok (some "1950-01-01", some "1959-12-31") ∧
    date_parse "1950-" ≠ .ok (some "1950-01-01", some "1950-12-31") ∧
    date_parse "1950--" =
      .error (.normalizeDateException "DATE NOT NORMALIZED: No match found: 1950--") := by
  decide

/-- C8 (amended): a 4-digit year with ONE trailing dash cleans to itself
and resolves via `pattern7` to the year's decade span (YYYY-01-01,
YYY9-12-31); with TWO trailing dashes it cleans to itself, matches no
registered pattern, and normalization fails with `NormalizeDateException`
— neither shape yields the single year's span YYYY-01-01 / YYYY-12-31. -/
theorem C8_trailing_dashes (a b c d : Char)
    (ha : a.isDigit = true) (hb : b.isDigit = true) (hc : c.isDigit = true)
    (hd : d.isDigit = true) :
    date_parse_chars (date_clean_chars [a, b, c, d, '-']) =
      .ok (some ⟨[a, b, c, d] ++ "-01-01".toList⟩,
           some ⟨[a, b, c] ++ "9-12-31".toList⟩) ∧
    date_parse_chars (date_clean_chars [a, b, c, d, '-', '-']) =
      .error (.normalizeDateException
        ("DATE NOT NORMALIZED: No match found: " ++ ⟨[a, b, c, d, '-', '-']⟩)) := by
  constructor
  · rw [show [a, b, c, d, '-'] = [a, b, c, d] ++ ['-'] from rfl,
      C8_clean_aux a b c d ['-'] ha hb hc hd (Or.inl rfl)]
    exact C8_dispatch_one_aux a b c d ha hb hc hd
  · rw [show [a, b, c, d, '-', '-'] = [a, b, c, d] ++ ['-', '-'] from rfl,
      C8_clean_aux a b c d ['-', '-'] ha hb hc hd (Or.inr rfl)]
    exact C8_dispatch_two_aux a b c d ha hb hc hd

/-- Witness for C8 at "1950-" and "1950--". -/
theorem C8_witness :
    date_parse_chars (date_clean_chars ['1', '9', '5', '0', '-']) =
      .ok (some ⟨['1', '9', '5', '0'] ++ "-01-01".toList⟩,
           some ⟨['1', '9', '5'] ++ "9-12-31".toList⟩) ∧
    date_parse_chars (date_clean_chars ['1', '9', '5', '0', '-', '-']) =
      .error (.normalizeDateException
        ("DATE NOT NORMALIZED: No match found: " ++ ⟨['1', '9', '5', '0', '-', '-']⟩)) :=
  C8_trailing_dashes '1' '9' '5' '0' (by decide) (by decide) (by decide) (by decide)

/-! ### Claim C5 -/

theorem chkB_none : chkB none = some true := rfl

theorem chkB_some_iff (y m d : Nat) (hy : y < 10000) (hm : m < 100) (hd : d < 100) :
    (chkB (some (fmtB (y, m, d))) = some true) ↔ wellFormedInWindow y m d := by
  simp only [chkB, fmtB]
  have hl : (⟨mkDateC y m d⟩ : String).toList = mkDateC y m d := rfl
  rw [hl, strptimeYmd_mk y m d hy hm hd]
  by_cases hcond : 1 ≤ y ∧ 1 ≤ m ∧ m ≤ 12 ∧ 1 ≤ d ∧ d ≤ pyMonthLen y m
  · rw [if_pos hcond]
    unfold wellFormedInWindow
    rw [← pyMonthLen_eq_trueMonthLength y m hcond.2.1 hcond.2.2.1]
    simp only [Option.some.injEq, decide_eq_true_eq]
    constructor
    · intro hw
      exact ⟨hcond.2.1, hcond.2.2.1, hcond.2.2.2.1, hcond.2.2.2.2, hw.1, hw.2⟩
    · intro hw
      exact ⟨hw.2.2.2.2.1, hw.2.2.2.2.2⟩
  · rw [if_neg hcond]
    constructor
    · intro hcontra
      exact Option.noConfusion hcontra
    · intro hw
      exfalso
      obtain ⟨w1, w2, w3, w4, w5, w6⟩ := hw
      rw [← pyMonthLen_eq_trueMonthLength y m w1 w2] at w4
      exact hcond ⟨by omega, w1, w2, w3, w4⟩

theorem chkB_some_true_or (b : Option String) :
    chkB b = some true ∨ chkB b ≠ some true := by
  by_cases h : chkB b = some true
  · exact Or.inl h
  · exact Or.inr h

theorem is_sane_true_iff (r : Rng) :
    is_sane_date r = true ↔ (chkB r.1 = some true ∧ chkB r.2 = some true) := by
  unfold is_sane_date
  cases h1 : chkB r.1 with
  | none => simp
  | some a =>
    cases h2 : chkB r.2 with
    | none => simp
    | some b => cases a <;> cases b <;> simp

/-- C5: the sanity filter's characterisation.  First part: on bounds of
the padded `YYYY-MM-DD` rendering (the shape every stage produces),
`is_sane_date` rejects the range exactly when some non-null bound is not a
well-formed calendar date with its year inside the 1000–2100 window — so
a range with one null bound and one well-formed in-window bound is
accepted.  Second part: a rejected range surfaces as the returned Failure
value (`None`) of `parse_date_string`, and an accepted one does not. -/
theorem C5_sanity_filter :
    (∀ b1 b2 : Option (Nat × Nat × Nat), boundedB b1 → boundedB b2 →
      (is_sane_date (b1.map fmtB, b2.map fmtB) = false ↔ badB b1 ∨ badB b2)) ∧
    (∀ (drp : String → Option Rng) (s : String) (r : Rng), drp (date_clean s) = some r →
      (parse_date_string drp s = .ok none ↔ is_sane_date r = false)) := by
  constructor
  · intro b1 b2 hb1 hb2
    have key : ∀ b : Option (Nat × Nat × Nat), boundedB b →
        ((chkB (b.map fmtB) = some true) ↔ ¬ badB b) := by
      intro b hb
      cases b with
      | none => simp [chkB_none, badB]
      | some t =>
        obtain ⟨y, m, d⟩ := t
        obtain ⟨hy, hm, hd⟩ := hb
        simp only [Option.map_some', badB, not_not]
        exact chkB_some_iff y m d hy hm hd
    have hiff := is_sane_true_iff (b1.map fmtB, b2.map fmtB)
    constructor
    · intro hfalse
      by_contra hcon
      push_neg at hcon
      have h1 : chkB (b1.map fmtB) = some true := (key b1 hb1).mpr hcon.1
      have h2 : chkB (b2.map fmtB) = some true := (key b2 hb2).mpr hcon.2
      have : is_sane_date (b1.map fmtB, b2.map fmtB) = true := hiff.mpr ⟨h1, h2⟩
      rw [this] at hfalse
      cases hfalse
    · intro hbad
      cases hsane : is_sane_date (b1.map fmtB, b2.map fmtB) with
      | false => rfl
      | true =>
        exfalso
        have := hiff.mp hsane
        rcases hbad with hb | hb
        · exact ((key b1 hb1).mp this.1) hb
        · exact ((key b2 hb2).mp this.2) hb
  · intro drp s r hdrp
    simp only [parse_date_string, hdrp]
    cases hsane : is_sane_date r with
    | false => simp
    | true => simp

/-- Witness for C5: the bound (500, 1, 1) renders as "0500-01-01", is
structurally well-formed but out of window, and the open-ended range with
it as start is rejected. -/
theorem C5_witness :
    is_sane_date ((some (500, 1, 1)).map fmtB, Option.map fmtB none) = false :=
  (C5_sanity_filter.1 (some (500, 1, 1)) none
    (by exact ⟨by omega, by omega, by omega⟩) trivial).mpr
    (Or.inl (by unfold badB wellFormedInWindow; omega))

/-! ### Claim C6 -/

theorem pyInt_pad4 (y : Nat) (hy : y < 10000) : pyInt (pad4 y) = y := by
  simp [pyInt, pad4, digitVal_dChar]
  omega

theorem monthLookup_lower (m : Nat) (h1 : 1 ≤ m) (h2 : m ≤ 12) :
    monthLookup (lowerL (monthLowerName m)) = some m := by
  interval_cases m <;> decide

theorem mapLow_monthTitle (m : Nat) (h1 : 1 ≤ m) (h2 : m ≤ 12) :
    List.map lowCh (monthTitleName m) = monthLowerName m := by
  interval_cases m <;> decide

theorem takeMonthName_title_nil (m : Nat) (h1 : 1 ≤ m) (h2 : m ≤ 12) :
    takeMonthName (monthTitleName m) = some (m, []) := by
  interval_cases m <;> decide

theorem dropWhile_space_title (m : Nat) (h1 : 1 ≤ m) (h2 : m ≤ 12) :
    List.dropWhile isSpaceCh (monthTitleName m) = monthTitleName m := by
  interval_cases m <;> decide

theorem validYMD_first (y m : Nat) (hy1 : 1 ≤ y) (hy2 : y ≤ 9999)
    (hm1 : 1 ≤ m) (hm2 : m ≤ 12) : validYMD y m 1 = true := by
  have hb := pyMonthLen_bounds y m hm1 hm2
  simp only [validYMD, Bool.and_eq_true, decide_eq_true_eq]
  omega

theorem validYMD_eom (y m : Nat) (hy1 : 1 ≤ y) (hy2 : y ≤ 9999)
    (hm1 : 1 ≤ m) (hm2 : m ≤ 12) : validYMD y m (pyMonthLen y m) = true := by
  have hb := pyMonthLen_bounds y m hm1 hm2
  simp only [validYMD, Bool.and_eq_true, decide_eq_true_eq]
  omega

theorem takeSp1_space (l : List Char) :
    takeSp1 (' ' :: l) = some (l.dropWhile isSpaceCh) := by
  simp [takeSp1, isSpaceCh]

theorem takeMonthName_title (m : Nat) (h1 : 1 ≤ m) (h2 : m ≤ 12) (rest : List Char) :
    takeMonthName (monthTitleName m ++ rest) = some (m, rest) := by
  interval_cases m <;>
    simp +decide [takeMonthName, monthNameTable, monthTitleName, lowerL]

theorem strptimeYB_mk (y m : Nat) (hy1 : 1 ≤ y) (hy2 : y ≤ 9999)
    (hm1 : 1 ≤ m) (hm2 : m ≤ 12) :
    strptimeYB (pad4 y ++ ' ' :: monthTitleName m) = some (y, m) := by
  unfold strptimeYB
  rw [takeDig4_pad4 y (by omega) (' ' :: monthTitleName m)]
  simp [takeSp1_space, dropWhile_space_title m hm1 hm2,
    takeMonthName_title_nil m hm1 hm2, validYMD_first y m hy1 hy2 hm1 hm2]

theorem strptimeBY_mk (y m : Nat) (hy1 : 1 ≤ y) (hy2 : y ≤ 9999)
    (hm1 : 1 ≤ m) (hm2 : m ≤ 12) :
    strptimeBY (monthTitleName m ++ ' ' :: pad4 y) = some (y, m) := by
  have h4 : takeDig4 (pad4 y) = some (y, []) := by
    have h := takeDig4_pad4 y (by omega) []
    rwa [List.append_nil] at h
  have hdw : (pad4 y).dropWhile isSpaceCh = pad4 y := by
    simp [pad4, digit_isSpaceCh (dChar_isDigit (y / 1000))]
  unfold strptimeBY
  rw [takeMonthName_title m hm1 hm2 (' ' :: pad4 y)]
  simp [takeSp1_space, hdw, h4, validYMD_first y m hy1 hy2 hm1 hm2]

/-- C6: every "end of month" bound the code computes equals the true
calendar month length, leap-year aware.  Conjuncts: (1) the
"Year MonthName" fallback template, (2) the "MonthName Year" fallback
template, (3) the `pattern23` month-range handler, (4) the `pattern25`
mixed-specificity handler with the end day absent, (5) the `pattern26`
year-to-month handler with the end day absent — each produces an end day
equal to `trueMonthLength` (the spec-side Gregorian month length) — and
(6) `calendar.monthrange`'s day count agrees with `trueMonthLength` on
every month, with February = 29 exactly in Gregorian leap years
(29 in 2000 and 2024, 28 in 1900 and 2023). -/
theorem C6_month_end_true_length :
    (∀ y m, 1 ≤ y → y ≤ 9999 → 1 ≤ m → m ≤ 12 →
      normalize_year_month (pad4 y ++ ' ' :: monthTitleName m) =
        .ok (some ⟨fmtYm y m ++ "-01".toList⟩,
             some ⟨fmtYm y m ++ '-' :: pyRepr (trueMonthLength y m)⟩)) ∧
    (∀ y m, 1 ≤ y → y ≤ 9999 → 1 ≤ m → m ≤ 12 →
      normalize_month_year (monthTitleName m ++ ' ' :: pad4 y) =
        .ok (some ⟨fmtYm y m ++ "-01".toList⟩,
             some ⟨fmtYm y m ++ '-' :: pyRepr (trueMonthLength y m)⟩)) ∧
    (∀ (l : List Char) y1 m1 y2 m2, y1 < 10000 → y2 < 10000 →
      1 ≤ m1 → m1 ≤ 12 → 1 ≤ m2 → m2 ≤ 12 →
      handler23 l [(1, pad4 y1), (2, monthLowerName m1), (3, pad4 y2), (4, monthLowerName m2)] =
        .ok (some ⟨pyRepr y1 ++ '-' :: pad2 m1 ++ "-01".toList⟩,
             some ⟨pyRepr y2 ++ '-' :: pad2 m2 ++ '-' :: pad2 (trueMonthLength y2 m2)⟩)) ∧
    (∀ (l : List Char) y1 m1 y2 m2, 1 ≤ y1 → y1 ≤ 9999 → 1 ≤ y2 → y2 ≤ 9999 →
      1 ≤ m1 → m1 ≤ 12 → 1 ≤ m2 → m2 ≤ 12 →
      handler25 l [(1, pad4 y1), (2, monthLowerName m1), (4, pad4 y2), (5, monthLowerName m2)] =
        .ok (some ⟨fmtYmd y1 m1 1⟩, some ⟨fmtYmd y2 m2 (trueMonthLength y2 m2)⟩)) ∧
    (∀ (l : List Char) y1 y2 m2, y1 < 10000 → 1 ≤ y2 → y2 ≤ 9999 → 1 ≤ m2 → m2 ≤ 12 →
      handler26 l [(1, pad4 y1), (2, pad4 y2), (3, monthLowerName m2)] =
        .ok (some ⟨pyRepr y1 ++ "-01-01".toList⟩,
             some ⟨fmtYmd y2 m2 (trueMonthLength y2 m2)⟩)) ∧
    ((∀ y m, 1 ≤ m → m ≤ 12 → pyMonthLen y m = trueMonthLength y m) ∧
      trueMonthLength 2000 2 = 29 ∧ trueMonthLength 2024 2 = 29 ∧
      trueMonthLength 1900 2 = 28 ∧ trueMonthLength 2023 2 = 28 ∧
      (∀ y, trueMonthLength y 2 = if gregorianLeap y then 29 else 28)) := by
  refine ⟨?_, ?_, ?_, ?_, ?_, ?_, by decide, by decide, by decide, by decide, ?_⟩
  · intro y m hy1 hy2 hm1 hm2
    unfold normalize_year_month
    rw [strptimeYB_mk y m hy1 hy2 hm1 hm2]
    simp [pyMonthLen_eq_trueMonthLength y m hm1 hm2]
  · intro y m hy1 hy2 hm1 hm2
    unfold normalize_month_year
    rw [strptimeBY_mk y m hy1 hy2 hm1 hm2]
    simp [pyMonthLen_eq_trueMonthLength y m hm1 hm2]
  · intro l y1 m1 y2 m2 hy1 hy2 hm11 hm12 hm21 hm22
    unfold handler23
    simp only [gstr, grp]
    simp only [List.find?]
    simp +decide [monthLookup_lower m1 hm11 hm12, monthLookup_lower m2 hm21 hm22,
      pyInt_pad4 y1 hy1, pyInt_pad4 y2 hy2,
      pyMonthLen_eq_trueMonthLength y2 m2 hm21 hm22]
  · intro l y1 m1 y2 m2 hy11 hy12 hy21 hy22 hm11 hm12 hm21 hm22
    have hve : validYMD y2 m2 (trueMonthLength y2 m2) = true := by
      rw [← pyMonthLen_eq_trueMonthLength y2 m2 hm21 hm22]
      exact validYMD_eom y2 m2 hy21 hy22 hm21 hm22
    unfold handler25
    simp only [gstr, grp]
    simp only [List.find?]
    simp +decide [hve, monthLookup_lower m1 hm11 hm12, monthLookup_lower m2 hm21 hm22,
      pyInt_pad4 y1 (by omega), pyInt_pad4 y2 (by omega),
      validYMD_first y1 m1 hy11 hy12 hm11 hm12,
      validYMD_eom y2 m2 hy21 hy22 hm21 hm22,
      pyMonthLen_eq_trueMonthLength y2 m2 hm21 hm22]
  · intro l y1 y2 m2 hy1 hy21 hy22 hm21 hm22
    have hve : validYMD y2 m2 (trueMonthLength y2 m2) = true := by
      rw [← pyMonthLen_eq_trueMonthLength y2 m2 hm21 hm22]
      exact validYMD_eom y2 m2 hy21 hy22 hm21 hm22
    unfold handler26
    simp only [gstr, grp]
    simp only [List.find?]
    simp +decide [hve, monthLookup_lower m2 hm21 hm22,
      pyInt_pad4 y1 hy1, pyInt_pad4 y2 (by omega),
      validYMD_eom y2 m2 hy21 hy22 hm21 hm22,
      pyMonthLen_eq_trueMonthLength y2 m2 hm21 hm22]
  · intro y m hm1 hm2
    exact pyMonthLen_eq_trueMonthLength y m hm1 hm2
  · intro y
    simp [trueMonthLength]

/-- Witness for C6: February 2000 ends on the 29th via the
"Year MonthName" fallback template. -/
theorem C6_witness :
    normalize_year_month (pad4 2000 ++ ' ' :: monthTitleName 2) =
      .ok (some ⟨fmtYm 2000 2 ++ "-01".toList⟩,
           some ⟨fmtYm 2000 2 ++ '-' :: pyRepr (trueMonthLength 2000 2)⟩) :=
  C6_month_end_true_length.1 2000 2 (by decide) (by decide) (by decide) (by decide)

/-! ### Claim C10 -/

theorem strptimeMdy_mk (m d y : Nat) (hm1 : 1 ≤ m) (hm2 : m ≤ 12) (hd1 : 1 ≤ d)
    (hd31 : d ≤ 31) (hy : y < 100) (hval : validYMD (pivotY y) m d = true) :
    strptimeMdy (pad2 m ++ '/' :: (pad2 d ++ '/' :: pad2 y)) = some (pivotY y, m, d) := by
  unfold strptimeMdy
  rw [takeMon_pad2 m (by omega) ('/' :: (pad2 d ++ '/' :: pad2 y)), if_pos ⟨hm1, hm2⟩]
  simp only [Option.bind_eq_bind, Option.some_bind, takeCh, eq_self_iff_true, if_true]
  rw [takeDay_pad2 d (by omega) ('/' :: pad2 y), if_pos ⟨hd1, hd31⟩]
  simp only [Option.some_bind, takeCh, eq_self_iff_true, if_true]
  have h2 : takeDig2 (pad2 y) = some (y, []) := by
    have h := takeDig2_pad2 y hy []
    rwa [List.append_nil] at h
  rw [h2]
  simp [hval]

set_option maxHeartbeats 1000000 in
theorem C10_clean_aux (a b c d e f : Char)
    (ha : a.isDigit = true) (hb : b.isDigit = true) (hc : c.isDigit = true)
    (hd : d.isDigit = true) (he : e.isDigit = true) (hf : f.isDigit = true) :
    date_clean_chars [a, b, '/', c, d, '/', e, f] = [a, b, '/', c, d, '/', e, f] := by
  simp +decide [date_clean_chars, stripL, lowerL, applySubs, applyReSubs, subsList,
    reSubsList, pyReplace, replaceFuel, pyWordSub, wordSubFuel, wordHere,
    ha, hb, hc, hd, he, hf,
    digit_ne ha, digit_ne hb, digit_ne hc, digit_ne hd, digit_ne he, digit_ne hf,
    digit_ne2 ha, digit_ne2 hb, digit_ne2 hc, digit_ne2 hd, digit_ne2 he, digit_ne2 hf,
    digit_beqL ha, digit_beqL hb, digit_beqL hc, digit_beqL hd, digit_beqL he,
    digit_beqL hf,
    digit_beqR ha, digit_beqR hb, digit_beqR hc, digit_beqR hd, digit_beqR he,
    digit_beqR hf,
    digit_isSpaceCh ha, digit_isSpaceCh hb, digit_isSpaceCh hc, digit_isSpaceCh hd,
    digit_isSpaceCh he, digit_isSpaceCh hf,
    digit_isWordCh ha, digit_isWordCh hb, digit_isWordCh hc, digit_isWordCh hd,
    digit_isWordCh he, digit_isWordCh hf,
    digit_lowCh ha, digit_lowCh hb, digit_lowCh hc, digit_lowCh hd, digit_lowCh he,
    digit_lowCh hf]

set_option maxHeartbeats 1000000 in
theorem C10_dispatch_aux (a b c d e f : Char)
    (ha : a.isDigit = true) (hb : b.isDigit = true) (hc : c.isDigit = true)
    (hd : d.isDigit = true) (he : e.isDigit = true) (hf : f.isDigit = true) :
    date_parse_chars [a, b, '/', c, d, '/', e, f] =
      handler19 [a, b, '/', c, d, '/', e, f] [] := by
  simp +decide [date_parse_chars, runPatterns, registry, reSearchP, matchAt, searchFrom,
    mtch, starGreedy, seqAll, litRE, chrRE, dig, dig2, dig3, dig4, dig12, spRE, dashSp,
    qDash, plusRE,
    pat1, pat2, pat3, pat4, pat5, pat6, pat7, pat8, pat9, pat10, pat11, pat12, pat13,
    pat14, pat15, pat16, pat17, pat18, pat19, pat20, pat21, pat22, pat23, pat24, pat25,
    pat26, pat27,
    handler19,
    ha, hb, hc, hd, he, hf,
    digit_ne ha, digit_ne hb, digit_ne hc, digit_ne hd, digit_ne he, digit_ne hf,
    digit_ne2 ha, digit_ne2 hb, digit_ne2 hc, digit_ne2 hd, digit_ne2 he, digit_ne2 hf,
    digit_isSpaceCh ha, digit_isSpaceCh hb, digit_isSpaceCh hc, digit_isSpaceCh hd,
    digit_isSpaceCh he, digit_isSpaceCh hf,
    digit_isLowerAlpha ha, digit_isLowerAlpha hb, digit_isLowerAlpha hc,
    digit_isLowerAlpha hd, digit_isLowerAlpha he, digit_isLowerAlpha hf]

/-- C10: a valid "mm/dd/yy" date resolves via `pattern19`'s
`strptime("%m/%d/%y")` with the fixed century pivot — two-digit years
00–68 map to 2000–2068 and 69–99 to 1969–1999 — and the end bound is
null (unbounded). -/
theorem C10_two_digit_year_pivot (m d y : Nat) (hm1 : 1 ≤ m) (hm2 : m ≤ 12)
    (hd1 : 1 ≤ d) (hy : y < 100) (hd2 : d ≤ trueMonthLength (pivotY y) m) :
    date_parse_chars (date_clean_chars (pad2 m ++ '/' :: (pad2 d ++ '/' :: pad2 y))) =
      .ok (some ⟨fmtYmd (pivotY y) m d⟩, none) ∧
    pivotY y = (if y ≤ 68 then y + 2000 else y + 1900) := by
  have hpiv : 1 ≤ pivotY y ∧ pivotY y ≤ 9999 := by unfold pivotY; split <;> omega
  have hlen : d ≤ pyMonthLen (pivotY y) m := by
    rwa [pyMonthLen_eq_trueMonthLength (pivotY y) m hm1 hm2]
  have hd31 : d ≤ 31 := by
    have := pyMonthLen_bounds (pivotY y) m hm1 hm2
    omega
  have hval : validYMD (pivotY y) m d = true := by
    simp only [validYMD, Bool.and_eq_true, decide_eq_true_eq]
    exact ⟨⟨⟨⟨⟨hpiv.1, hpiv.2⟩, hm1⟩, hm2⟩, hd1⟩, hlen⟩
  have hm' := strptimeMdy_mk m d y hm1 hm2 hd1 hd31 hy hval
  constructor
  · have hshape : pad2 m ++ '/' :: (pad2 d ++ '/' :: pad2 y) =
        [dChar (m / 10), dChar m, '/', dChar (d / 10), dChar d, '/',
         dChar (y / 10), dChar y] := by
      simp [pad2]
    rw [hshape] at hm' ⊢
    rw [C10_clean_aux _ _ _ _ _ _ (dChar_isDigit (m / 10)) (dChar_isDigit m)
      (dChar_isDigit (d / 10)) (dChar_isDigit d) (dChar_isDigit (y / 10))
      (dChar_isDigit y)]
    rw [C10_dispatch_aux _ _ _ _ _ _ (dChar_isDigit (m / 10)) (dChar_isDigit m)
      (dChar_isDigit (d / 10)) (dChar_isDigit d) (dChar_isDigit (y / 10))
      (dChar_isDigit y)]
    unfold handler19
    rw [hm']
  · unfold pivotY
    split <;> omega

/-- Witness for C10 at "01/02/68" → 2068-01-02, end unbounded. -/
theorem C10_witness :
    date_parse_chars (date_clean_chars (pad2 1 ++ '/' :: (pad2 2 ++ '/' :: pad2 68))) =
      .ok (some ⟨fmtYmd (pivotY 68) 1 2⟩, none) ∧
    pivotY 68 = (if 68 ≤ 68 then 68 + 2000 else 68 + 1900) :=
  C10_two_digit_year_pivot 1 2 68 (by decide) (by decide) (by decide) (by decide)
    (by decide)

/-! ### Claim C2 -/

set_option maxHeartbeats 1000000 in
theorem C2_clean_aux (a b c d e f g h : Char)
    (ha : a.isDigit = true) (hb : b.isDigit = true) (hc : c.isDigit = true)
    (hd : d.isDigit = true) (he : e.isDigit = true) (hf : f.isDigit = true)
    (hg : g.isDigit = true) (hh : h.isDigit = true) :
    date_clean_chars [a, b, c, d, '-', e, f, '-', g, h] =
      [a, b, c, d, '-', e, f, '-', g, h] := by
  simp +decide [date_clean_chars, stripL, lowerL, applySubs, applyReSubs, subsList,
    reSubsList, pyReplace, replaceFuel, pyWordSub, wordSubFuel, wordHere,
    ha, hb, hc, hd, he, hf, hg, hh,
    digit_ne ha, digit_ne hb, digit_ne hc, digit_ne hd,
    digit_ne he, digit_ne hf, digit_ne hg, digit_ne hh,
    digit_ne2 ha, digit_ne2 hb, digit_ne2 hc, digit_ne2 hd,
    digit_ne2 he, digit_ne2 hf, digit_ne2 hg, digit_ne2 hh,
    digit_beqL ha, digit_beqL hb, digit_beqL hc, digit_beqL hd,
    digit_beqL he, digit_beqL hf, digit_beqL hg, digit_beqL hh,
    digit_beqR ha, digit_beqR hb, digit_beqR hc, digit_beqR hd,
    digit_beqR he, digit_beqR hf, digit_beqR hg, digit_beqR hh,
    digit_isSpaceCh ha, digit_isSpaceCh hb, digit_isSpaceCh hc, digit_isSpaceCh hd,
    digit_isSpaceCh he, digit_isSpaceCh hf, digit_isSpaceCh hg, digit_isSpaceCh hh,
    digit_isWordCh ha, digit_isWordCh hb, digit_isWordCh hc, digit_isWordCh hd,
    digit_isWordCh he, digit_isWordCh hf, digit_isWordCh hg, digit_isWordCh hh,
    digit_lowCh ha, digit_lowCh hb, digit_lowCh hc, digit_lowCh hd,
    digit_lowCh he, digit_lowCh hf, digit_lowCh hg, digit_lowCh hh]

/-- C2, counterexample.  "0500-03-04" is an exact-date-shaped string
denoting a real calendar date, and the (spec-modelled) exact-date stage
resolves it with both bounds equal — but normalization does NOT succeed:
the sanity filter rejects the year 500 and `parse_date_string` returns the
Failure value. -/
theorem C2_out_of_window_counterexample :
    exactDateStage (date_clean "0500-03-04") = some (some "0500-03-04", some "0500-03-04") ∧
    parse_date_string exactDateStage "0500-03-04" = .ok none := by
  decide

/-- C2 (amended): for every exact-date-shaped input "YYYY-MM-DD" denoting
a real calendar date whose year lies in the sane window 1000–2100
(including leap dates such as 2000-02-29), normalization via the
(spec-modelled) exact-date stage succeeds and returns a range whose start
and end bounds both equal that date; dates outside the window are rejected
by the sanity filter. -/
theorem C2_exact_date_in_window (y m d : Nat) (hy1 : 1000 ≤ y) (hy2 : y ≤ 2100)
    (hm1 : 1 ≤ m) (hm2 : m ≤ 12) (hd1 : 1 ≤ d) (hd2 : d ≤ trueMonthLength y m) :
    parse_date_string exactDateStage ⟨mkDateC y m d⟩ =
      .ok (some (⟨mkDateC y m d⟩, some ⟨mkDateC y m d⟩, some ⟨mkDateC y m d⟩)) := by
  have hdlen : d ≤ pyMonthLen y m := by
    rwa [pyMonthLen_eq_trueMonthLength y m hm1 hm2]
  have hd31 : d ≤ 31 := by
    have := pyMonthLen_bounds y m hm1 hm2
    omega
  have hshape : mkDateC y m d =
      [dChar (y / 1000), dChar (y / 100), dChar (y / 10), dChar y, '-',
       dChar (m / 10), dChar m, '-', dChar (d / 10), dChar d] := by
    simp [mkDateC, pad4, pad2]
  have hclean : date_clean ⟨mkDateC y m d⟩ = ⟨mkDateC y m d⟩ := by
    show (⟨date_clean_chars (⟨mkDateC y m d⟩ : String).toList⟩ : String) = _
    have htl : (⟨mkDateC y m d⟩ : String).toList = mkDateC y m d := rfl
    rw [htl, hshape,
      C2_clean_aux _ _ _ _ _ _ _ _ (dChar_isDigit (y / 1000)) (dChar_isDigit (y / 100))
        (dChar_isDigit (y / 10)) (dChar_isDigit y) (dChar_isDigit (m / 10))
        (dChar_isDigit m) (dChar_isDigit (d / 10)) (dChar_isDigit d)]
  have hstage : exactDateStage ⟨mkDateC y m d⟩ =
      some (some ⟨mkDateC y m d⟩, some ⟨mkDateC y m d⟩) := by
    unfold exactDateStage
    have htl : (⟨mkDateC y m d⟩ : String).toList = mkDateC y m d := rfl
    rw [htl, hshape]
    simp only [dChar_isDigit, List.all_cons, List.all_nil, Bool.and_self, Bool.and_true,
      if_true, digitVal_dChar]
    have hygood : 1000 * (y / 1000 % 10) + 100 * (y / 100 % 10) + 10 * (y / 10 % 10)
        + y % 10 = y := by omega
    have hmgood : 10 * (m / 10 % 10) + m % 10 = m := by omega
    have hdgood : 10 * (d / 10 % 10) + d % 10 = d := by omega
    rw [hygood, hmgood, hdgood]
    have hcond : (decide (1 ≤ m) && decide (m ≤ 12) && decide (1 ≤ d)
        && decide (d ≤ pyMonthLen y m)) = true := by
      simp only [Bool.and_eq_true, decide_eq_true_eq]
      exact ⟨⟨⟨hm1, hm2⟩, hd1⟩, hdlen⟩
    rw [hcond]
    simp
  have hsane : is_sane_date (some ⟨mkDateC y m d⟩, some ⟨mkDateC y m d⟩) = true := by
    have hchk : chkB (some ⟨mkDateC y m d⟩) = some true := by
      have h1 : chkB (some ⟨mkDateC y m d⟩) =
          (match strptimeYmd (mkDateC y m d) with
            | none => none
            | some (yy, _, _) => some (decide (1000 ≤ yy ∧ yy ≤ 2100))) := rfl
      rw [h1, strptimeYmd_mk y m d (by omega) (by omega) (by omega),
        if_pos ⟨by omega, hm1, hm2, hd1, hdlen⟩]
      simp only [Option.some.injEq, decide_eq_true_eq]
      exact ⟨hy1, hy2⟩
    simp [is_sane_date, hchk]
  simp only [parse_date_string, hclean, hstage, hsane]
  simp

/-- Witness for C2 at the leap date 2000-02-29. -/
theorem C2_witness :
    parse_date_string exactDateStage ⟨mkDateC 2000 2 29⟩ =
      .ok (some (⟨mkDateC 2000 2 29⟩, some ⟨mkDateC 2000 2 29⟩, some ⟨mkDateC 2000 2 29⟩)) :=
  C2_exact_date_in_window 2000 2 29 (by decide) (by decide) (by decide) (by decide)
    (by decide) (by decide)

end AtomDate
